import Mathlib

set_option maxRecDepth 100000

/-!
Shallow embedding of the PTTTL C implementation (ptttl_parser.c /
ptttl_sample_generator.c).  C `float` arithmetic is modelled exactly over
unnormalized rationals (`fp` below); machine integers are `Nat` with explicit
`% 2^32` where overflow can occur.  The input interface (`read`/`seek`
callbacks) is modelled after the canonical memory interface shipped with the
repository (examples/ptttl_cli.c: `_read_mem` / `_seek_mem`).  Each C `while`
loop is modelled with an explicit fuel argument bounded by the input length;
fuel exhaustion yields the sentinel return code `-3`, which is unreachable for
the bounds used (every loop iteration consumes at least one input character).
-/

/-- Exact rational model of a C `float` value: numerator over positive
denominator, kept unnormalized so that all operations are plain integer
arithmetic (kernel-reducible). -/
structure fp where
  n : Int
  d : Nat
deriving DecidableEq

def fp.ofNat (k : Nat) : fp := ⟨k, 1⟩

def fp.ofInt (k : Int) : fp := ⟨k, 1⟩

def fp.zero : fp := ⟨0, 1⟩

def fp.add (x y : fp) : fp := ⟨x.n * y.d + y.n * x.d, x.d * y.d⟩

def fp.sub (x y : fp) : fp := ⟨x.n * y.d - y.n * x.d, x.d * y.d⟩

def fp.mul (x y : fp) : fp := ⟨x.n * y.n, x.d * y.d⟩

/-- Division; the sign of the divisor's numerator is moved into the result's
numerator so the denominator stays nonnegative. -/
def fp.div (x y : fp) : fp :=
  if 0 ≤ y.n then ⟨x.n * y.d, x.d * y.n.toNat⟩
  else ⟨-(x.n * y.d), x.d * (-y.n).toNat⟩

def fp.neg (x : fp) : fp := ⟨-x.n, x.d⟩

/-- C cast of a float to an integer type: truncation toward zero.
`Int.div` truncates toward zero, which for a nonnegative denominator is
exactly the C semantics. -/
def fp.trunc (x : fp) : Int := x.n.tdiv x.d

def fp.le (x y : fp) : Prop := x.n * y.d ≤ y.n * x.d

instance (x y : fp) : Decidable (fp.le x y) := by unfold fp.le; infer_instance

def fp.blt (x y : fp) : Bool := decide (x.n * y.d < y.n * x.d)

def fp.ble (x y : fp) : Bool := decide (x.n * y.d ≤ y.n * x.d)

-- quick sanity evals (removed in final file)

/-! ## Parser data model (ptttl_parser.h) -/

/-- ptttl_output_note_t: bit-packed note.  The C bit fields (`|` of disjoint
shifted ranges) are written as sums of disjoint multiples, which is the same
function. -/
structure ptttl_output_note_t where
  note_settings : Nat
  vibrato_settings : Nat
deriving DecidableEq

/-- SET_NOTE macro: bits 0-6 note value, bits 7-22 duration ms. -/
def SET_NOTE (note : ptttl_output_note_t) (value duration : Nat) : ptttl_output_note_t :=
  { note with note_settings := (value % 0x80) + (duration % 0x10000) * 0x80 }

/-- SET_VIBRATO macro: bits 0-15 frequency, bits 16-31 variance. -/
def SET_VIBRATO (note : ptttl_output_note_t) (freq var : Nat) : ptttl_output_note_t :=
  { note with vibrato_settings := (freq % 0x10000) + (var % 0x10000) * 0x10000 }

def PTTTL_NOTE_VALUE (note : ptttl_output_note_t) : Nat := note.note_settings % 0x80

def PTTTL_NOTE_DURATION (note : ptttl_output_note_t) : Nat :=
  (note.note_settings / 0x80) % 0x10000

def PTTTL_NOTE_VIBRATO_FREQ (note : ptttl_output_note_t) : Nat :=
  note.vibrato_settings % 0x10000

def PTTTL_NOTE_VIBRATO_VAR (note : ptttl_output_note_t) : Nat :=
  (note.vibrato_settings / 0x10000) % 0x10000

/-- ptttl_parser_input_stream_t. -/
structure ptttl_parser_input_stream_t where
  position : Nat
  line : Nat
  column : Nat
  block : Nat
  have_saved_char : Bool
  saved_char : Char
deriving DecidableEq

def default_input_stream : ptttl_parser_input_stream_t :=
  ⟨0, 0, 0, 0, false, '\x00'⟩

/-- ptttl_parser_error_t. -/
structure ptttl_parser_error_t where
  error_message : Option String
  line : Nat
  column : Nat
deriving DecidableEq

/-- Which stream `parser->active_stream` points at: the settings stream or a
channel stream. -/
inductive active_ref where
  | main : active_ref
  | chan : Nat → active_ref
deriving DecidableEq

/-- ptttl_parser_t.  The input interface is the canonical memory interface
(examples/ptttl_cli.c): `src` is the loaded source text and `input_pos` is the
interface's internal read position. -/
structure ptttl_parser_t where
  src : List Char
  input_pos : Nat
  name : List Char
  bpm : Nat
  default_duration : Nat
  default_octave : Nat
  default_vibrato_freq : Nat
  default_vibrato_var : Nat
  error : ptttl_parser_error_t
  channel_count : Nat
  active : active_ref
  stream : ptttl_parser_input_stream_t
  channels : List ptttl_parser_input_stream_t
deriving DecidableEq

def ptttl_parser_t.active_stream (p : ptttl_parser_t) : ptttl_parser_input_stream_t :=
  match p.active with
  | active_ref.main => p.stream
  | active_ref.chan i => p.channels.getD i default_input_stream

def ptttl_parser_t.set_active (p : ptttl_parser_t) (s : ptttl_parser_input_stream_t) :
    ptttl_parser_t :=
  match p.active with
  | active_ref.main => { p with stream := s }
  | active_ref.chan i => { p with channels := p.channels.set i s }

/-- ERROR macro (parser variant): records message, line, and column (column 0
is reported as 1). -/
def ERROR (p : ptttl_parser_t) (msg : String) : ptttl_parser_t :=
  let s := p.active_stream
  { p with error := ⟨some msg, s.line, if 0 < s.column then s.column else s.column + 1⟩ }

def IS_WHITESPACE (c : Char) : Bool :=
  c == '\t' || c == ' ' || c == '\x0b' || c == '\n' || c == '\r' || c == '\x0c'

def IS_DIGIT (c : Char) : Bool := '0' ≤ c && c ≤ '9'

/-! ## Input primitives -/

/-- Result of a read/peek: C return code, the by-reference `nextchar`
variable (unchanged when nothing was delivered), and the parser state. -/
structure char_res where
  ret : Int
  c : Char
  p : ptttl_parser_t
deriving DecidableEq

structure int_res where
  ret : Int
  p : ptttl_parser_t
deriving DecidableEq

/-- The memory-interface read callback (examples/ptttl_cli.c `_read_mem`):
returns 1 (EOF) past the end, otherwise delivers the next character. -/
def iface_read (p : ptttl_parser_t) (nextchar : Char) : char_res :=
  if p.src.length ≤ p.input_pos then ⟨1, nextchar, p⟩
  else ⟨0, p.src.getD p.input_pos ' ', { p with input_pos := p.input_pos + 1 }⟩

/-- The memory-interface seek callback (`_seek_mem`): positions at or past the
end are invalid (return 1). -/
def iface_seek (p : ptttl_parser_t) (position : Nat) : int_res :=
  if p.src.length ≤ position then ⟨1, p⟩
  else ⟨0, { p with input_pos := position }⟩

def _readchar_wrapper (p : ptttl_parser_t) (nextchar : Char) : char_res :=
  if p.active_stream.have_saved_char then
    let s := p.active_stream
    ⟨0, s.saved_char, p.set_active { s with have_saved_char := false }⟩
  else
    let r := iface_read p nextchar
    let s := r.p.active_stream
    ⟨r.ret, r.c, r.p.set_active { s with position := s.position + 1 }⟩

def ADVANCE_LINE_COLUMN (p : ptttl_parser_t) (c : Char) : ptttl_parser_t :=
  let s := p.active_stream
  if c == '\n' then p.set_active { s with line := s.line + 1, column := 0 }
  else p.set_active { s with column := s.column + 1 }

def _read_next_char (p : ptttl_parser_t) (nextchar : Char) : char_res :=
  let r := _readchar_wrapper p nextchar
  ⟨r.ret, r.c, ADVANCE_LINE_COLUMN r.p r.c⟩

def _peek_next_char (p : ptttl_parser_t) (nextchar : Char) : char_res :=
  if p.active_stream.have_saved_char then ⟨0, p.active_stream.saved_char, p⟩
  else
    let r := _readchar_wrapper p nextchar
    if r.ret == 0 then
      let s := r.p.active_stream
      ⟨r.ret, r.c, r.p.set_active { s with have_saved_char := true, saved_char := r.c }⟩
    else r

def _seek_wrapper (p : ptttl_parser_t) (position : Nat) : int_res :=
  let r := iface_seek p position
  if r.ret == 0 then
    let s := r.p.active_stream
    ⟨r.ret, r.p.set_active { s with position := position }⟩
  else r

/-! ## Lexical helpers -/

/-- Loop body of `_eat_all_nonvisible_chars`; one fuel unit per iteration. -/
def _eat_loop (fuel : Nat) (p : ptttl_parser_t) (in_comment : Bool) : int_res :=
  match fuel with
  | 0 => ⟨-3, p⟩
  | fuel + 1 =>
    let r := _peek_next_char p '\x00'
    if r.ret != 0 then ⟨r.ret, r.p⟩
    else if in_comment then
      let r2 := _read_next_char r.p r.c
      _eat_loop fuel r2.p (if r2.c == '\n' then false else true)
    else if !(IS_WHITESPACE r.c) then
      if r.c == '#' then
        let r2 := _read_next_char r.p r.c
        _eat_loop fuel r2.p true
      else ⟨0, r.p⟩
    else
      let r2 := _read_next_char r.p r.c
      _eat_loop fuel r2.p in_comment

def _eat_all_nonvisible_chars (p : ptttl_parser_t) : int_res :=
  _eat_loop (p.src.length + 2) p false

def _get_next_visible_char (p : ptttl_parser_t) (output : Char) : char_res :=
  let r := _eat_all_nonvisible_chars p
  if r.ret != 0 then ⟨r.ret, output, r.p⟩
  else _read_next_char r.p output

/-! ## Unsigned integer parsing -/

/-- Value of a digit string (most significant first) in the given base. -/
def digits_val (base : Nat) (l : List Char) : Nat :=
  l.foldl (fun acc c => acc * base + (c.toNat - 48)) 0

/-- `strtoul(buf, &endptr, 0)` on a buffer of decimal digits: a leading `'0'`
selects octal (consuming the maximal octal-digit prefix), otherwise the whole
buffer is consumed as decimal.  Returns the (ULONG_MAX-saturated, 64-bit
unsigned long) value and the number of characters consumed. -/
def strtoul0 (buf : List Char) : Nat × Nat :=
  match buf with
  | [] => (0, 0)
  | c :: rest =>
    if c == '0' then
      let oct := rest.takeWhile (fun d => '0' ≤ d && d ≤ '7')
      (min (digits_val 8 oct) 0xffffffffffffffff, 1 + oct.length)
    else
      (min (digits_val 10 buf) 0xffffffffffffffff, buf.length)

/-- Loop of `_parse_uint_from_input`: read digits into `buf` (max 31).
Status 0: stopped at a non-digit; 1: EOF; -1: "Integer is too long"
(error already recorded); -3: out of fuel (unreachable). -/
def _parse_uint_loop (fuel : Nat) (p : ptttl_parser_t) (buf : List Char) :
    Int × List Char × ptttl_parser_t :=
  match fuel with
  | 0 => (-3, buf, p)
  | fuel + 1 =>
    let r := _peek_next_char p '\x00'
    if r.ret != 0 then (r.ret, buf, r.p)
    else if IS_DIGIT r.c then
      let r2 := _read_next_char r.p r.c
      if buf.length == 31 then (-1, buf, ERROR r2.p "Integer is too long")
      else _parse_uint_loop fuel r2.p (buf ++ [r2.c])
    else (0, buf, r.p)

/-- Result of `_parse_uint_from_input`; `value` is the by-reference output
variable (unchanged unless the parse succeeded). -/
structure uint_res where
  ret : Int
  value : Nat
  p : ptttl_parser_t
deriving DecidableEq

def _parse_uint_from_input (p : ptttl_parser_t) (output : Nat) (eof_allowed : Bool) :
    uint_res :=
  let (status, buf, p) := _parse_uint_loop (p.src.length + 2) p []
  if status == -1 then ⟨-1, output, p⟩
  else if status == -3 then ⟨-3, output, p⟩
  else if status == 1 then
    if eof_allowed then ⟨1, output, p⟩
    else ⟨-1, output, ERROR p "Unexpected EOF encountered"⟩
  else if status < 0 then ⟨-1, output, ERROR p "interface callback returned -1"⟩
  else if buf.length == 0 then
    let r := _read_next_char p '\x00'
    ⟨-1, output, ERROR r.p "Expected a numerical digit"⟩
  else
    let (lval, consumed) := strtoul0 buf
    if consumed != buf.length then ⟨-1, output, ERROR p "Invalid integer (too large?)"⟩
    else if lval == 0xffffffffffffffff || 0xffffffff < lval then
      ⟨-1, output, ERROR p "Integer is too large"⟩
    else ⟨0, lval, p⟩

/-! ## Note names -/

def NOTE_C : Nat := 0
def NOTE_CS : Nat := 1
def NOTE_DB : Nat := 1
def NOTE_D : Nat := 2
def NOTE_DS : Nat := 3
def NOTE_EB : Nat := 3
def NOTE_E : Nat := 4
def NOTE_ES : Nat := 5
def NOTE_F : Nat := 5
def NOTE_FS : Nat := 6
def NOTE_GB : Nat := 6
def NOTE_G : Nat := 7
def NOTE_GS : Nat := 8
def NOTE_AB : Nat := 8
def NOTE_A : Nat := 9
def NOTE_AS : Nat := 10
def NOTE_BB : Nat := 10
def NOTE_B : Nat := 11
def NOTE_INVALID : Nat := 12

def NOTE_OCTAVE_MAX : Nat := 8

/-- ptttl_common.h `_octave_starts`: 0-based key number of the first key (C)
of each octave. -/
def _octave_starts : List Nat := [0, 3, 15, 27, 39, 51, 63, 75, 87]

/-- `_note_string_to_enum`: translation of the CHECK_SHARPONLY /
CHECK_SHARPFLAT / CHECK_FLATONLY macro cascade. -/
def _note_string_to_enum (string : List Char) (size : Nat) : Nat :=
  if 2 < size || size < 1 then NOTE_INVALID
  else
    let c0 := string.getD 0 '\x00'
    let c1 := string.getD 1 '\x00'
    if c0 == 'c' then
      if 1 < size then (if c1 == '#' then NOTE_CS else NOTE_INVALID) else NOTE_C
    else if c0 == 'd' then
      if 1 < size then
        (if c1 == '#' then NOTE_DS else if c1 == 'b' then NOTE_DB else NOTE_INVALID)
      else NOTE_D
    else if c0 == 'e' then
      if 1 < size then
        (if c1 == '#' then NOTE_ES else if c1 == 'b' then NOTE_EB else NOTE_INVALID)
      else NOTE_E
    else if c0 == 'f' then
      if 1 < size then (if c1 == '#' then NOTE_FS else NOTE_INVALID) else NOTE_F
    else if c0 == 'g' then
      if 1 < size then
        (if c1 == '#' then NOTE_GS else if c1 == 'b' then NOTE_GB else NOTE_INVALID)
      else NOTE_G
    else if c0 == 'a' then
      if 1 < size then
        (if c1 == '#' then NOTE_AS else if c1 == 'b' then NOTE_AB else NOTE_INVALID)
      else NOTE_A
    else if c0 == 'b' then
      if 1 < size then (if c1 == 'b' then NOTE_BB else NOTE_INVALID) else NOTE_B
    else NOTE_INVALID

/-- Result carrying a by-reference `Nat` output (note pitch / key number). -/
structure nat_res where
  ret : Int
  value : Nat
  p : ptttl_parser_t
deriving DecidableEq

/-- `_note_name_to_number`: pitch enum + octave to 1..88-style key number
(octave 0 only allows notes A and above). -/
def _note_name_to_number (p : ptttl_parser_t) (note octave : Nat) (output : Nat) :
    nat_res :=
  if octave == 0 then
    if note < NOTE_A then ⟨-1, output, ERROR p "Invalid musical note for octave 0"⟩
    else ⟨0, (note - NOTE_A) + 1, p⟩
  else ⟨0, (_octave_starts.getD octave 0 + note) + 1, p⟩

/-- Loop of `_parse_musical_note`: up to two note-name characters
(uppercase mapped to lowercase by adding 32, like the C `+ ' '`). -/
def _parse_musical_note_loop (iters : Nat) (p : ptttl_parser_t) (buf : List Char) :
    Int × List Char × ptttl_parser_t :=
  match iters with
  | 0 => (0, buf, p)
  | iters + 1 =>
    let r := _peek_next_char p '\x00'
    if r.ret != 0 then (r.ret, buf, r.p)
    else if ('A' ≤ r.c && r.c ≤ 'G') || r.c == 'P' then
      let r2 := _read_next_char r.p r.c
      _parse_musical_note_loop iters r2.p (buf ++ [Char.ofNat (r2.c.toNat + 32)])
    else if ('a' ≤ r.c && r.c ≤ 'g') || r.c == 'p' || r.c == '#' then
      let r2 := _read_next_char r.p r.c
      _parse_musical_note_loop iters r2.p (buf ++ [r2.c])
    else (0, buf, r.p)

def _parse_musical_note (p : ptttl_parser_t) (note_pitch : Nat) : nat_res :=
  let (readchar_ret, notebuf, p) := _parse_musical_note_loop 2 p []
  if readchar_ret == 1 then ⟨1, note_pitch, p⟩
  else if readchar_ret < 0 then ⟨-1, note_pitch, ERROR p "interface callback returned -1"⟩
  else if notebuf.length == 0 then
    let r := _read_next_char p '\x00'
    ⟨-1, note_pitch, ERROR r.p "Expecting a musical note name"⟩
  else if notebuf.length == 1 && notebuf.getD 0 '\x00' == 'p' then
    ⟨0, NOTE_INVALID, p⟩
  else
    let enum_val := _note_string_to_enum notebuf notebuf.length
    if enum_val == NOTE_INVALID then ⟨-1, note_pitch, ERROR p "Invalid musical note name"⟩
    else ⟨0, enum_val, p⟩

/-! ## Settings section -/

def NOTE_DURATION_COUNT : Nat := 6

def _valid_note_durations : List Nat := [1, 2, 4, 8, 16, 32]

def _valid_note_duration (duration : Nat) : Bool :=
  _valid_note_durations.contains duration

def _parse_option (opt : Char) (p : ptttl_parser_t) (option_expected : Bool) : int_res :=
  if opt == ':' then
    if option_expected then ⟨-1, ERROR p "Expected another option setting"⟩
    else ⟨0, p⟩
  else
    let r := _get_next_visible_char p '\x00'
    if r.ret == 1 then ⟨-1, ERROR r.p "Unexpected EOF encountered"⟩
    else if r.ret < 0 then ⟨-1, ERROR r.p "interface callback returned -1"⟩
    else if r.c != '=' then
      let s := r.p.active_stream
      let p2 := if 1 < s.column then r.p.set_active { s with column := s.column - 1 } else r.p
      ⟨-1, ERROR p2 "Invalid option setting"⟩
    else if opt == 'b' then
      let u := _parse_uint_from_input r.p r.p.bpm false
      let p2 : ptttl_parser_t := { u.p with bpm := u.value }
      if u.ret == 0 then
        if p2.bpm == 0 then ⟨-1, ERROR p2 "BPM cannot be zero"⟩ else ⟨0, p2⟩
      else ⟨u.ret, p2⟩
    else if opt == 'd' then
      let u := _parse_uint_from_input r.p r.p.default_duration false
      let p2 : ptttl_parser_t := { u.p with default_duration := u.value }
      if u.ret == 0 then
        if !(_valid_note_duration p2.default_duration) then
          ⟨-1, ERROR p2 "Invalid note duration (must be 1, 2, 4, 8, 16 or 32)"⟩
        else ⟨0, p2⟩
      else ⟨u.ret, p2⟩
    else if opt == 'o' then
      let u := _parse_uint_from_input r.p r.p.default_octave false
      let p2 : ptttl_parser_t := { u.p with default_octave := u.value }
      if u.ret == 0 then
        if NOTE_OCTAVE_MAX < p2.default_octave then
          ⟨-1, ERROR p2 "Invalid octave (must be 0 through 8)"⟩
        else ⟨0, p2⟩
      else ⟨u.ret, p2⟩
    else if opt == 'f' then
      let u := _parse_uint_from_input r.p r.p.default_vibrato_freq false
      let p2 : ptttl_parser_t := { u.p with default_vibrato_freq := u.value }
      if 0xffff < p2.default_vibrato_freq then
        ⟨-1, ERROR p2 "Vibrato frequency too high (maximum is 65,535)"⟩
      else ⟨u.ret, p2⟩
    else if opt == 'v' then
      let u := _parse_uint_from_input r.p r.p.default_vibrato_var false
      let p2 : ptttl_parser_t := { u.p with default_vibrato_var := u.value }
      if 0xffff < p2.default_vibrato_var then
        ⟨-1, ERROR p2 "Vibrato variance too high (maximum is 65,535)"⟩
      else ⟨u.ret, p2⟩
    else
      let s := r.p.active_stream
      let p2 := if 1 < s.column then r.p.set_active { s with column := s.column - 1 } else r.p
      ⟨-1, ERROR p2 "Unrecognized option key"⟩

def _parse_settings_loop (fuel : Nat) (p : ptttl_parser_t) (expecting_another_option : Bool) :
    int_res :=
  match fuel with
  | 0 => ⟨-3, p⟩
  | fuel + 1 =>
    let r := _get_next_visible_char p '\x00'
    if r.ret == 1 then ⟨-1, ERROR r.p "Unexpected EOF encountered"⟩
    else if r.ret < 0 then ⟨-1, ERROR r.p "interface callback returned -1"⟩
    else
      let r2 := _parse_option r.c r.p expecting_another_option
      if r2.ret != 0 then r2
      else if r.c == ':' then ⟨0, r2.p⟩
      else
        let r3 := _get_next_visible_char r2.p '\x00'
        if r3.ret == 1 then ⟨-1, ERROR r3.p "Unexpected EOF encountered"⟩
        else if r3.ret < 0 then ⟨-1, ERROR r3.p "interface callback returned -1"⟩
        else if r3.c == ',' then _parse_settings_loop fuel r3.p true
        else if r3.c != ':' then
          ⟨-1, ERROR r3.p "Malformed settings section (did you forget a comma?)"⟩
        else ⟨0, r3.p⟩

def _parse_settings (p : ptttl_parser_t) : int_res :=
  let p := { p with bpm := 123, default_duration := 8, default_octave := 4,
                    default_vibrato_freq := 7, default_vibrato_var := 10 }
  _parse_settings_loop (p.src.length + 2) p false

-- sanity eval: settings for "x:b=100:c" after name is consumed

/-! ## Note parsing (vibrato suffix, duration, pitch) -/

/-- Result of note-producing calls; `note` is the by-reference output note. -/
structure note_res where
  ret : Int
  note : ptttl_output_note_t
  p : ptttl_parser_t
deriving DecidableEq

/-- `_parse_note_vibrato`: optional `v<freq>[-<variance>]` suffix. -/
def _parse_note_vibrato (p : ptttl_parser_t) (output : ptttl_output_note_t) : note_res :=
  let r := _peek_next_char p '\x00'
  if r.ret == 1 then ⟨1, output, r.p⟩
  else if r.ret < 0 then ⟨-1, output, ERROR r.p "interface callback returned -1"⟩
  else if r.c != 'v' then ⟨0, SET_VIBRATO output 0 0, r.p⟩
  else
    let r2 := _read_next_char r.p r.c
    let output := SET_VIBRATO output r2.p.default_vibrato_freq r2.p.default_vibrato_var
    let r3 := _peek_next_char r2.p '\x00'
    if r3.ret == 1 then ⟨1, output, r3.p⟩
    else if r3.ret < 0 then ⟨-1, output, ERROR r3.p "interface callback returned -1"⟩
    else if IS_DIGIT r3.c then
      let u := _parse_uint_from_input r3.p 0 true
      if u.ret != 0 then ⟨u.ret, output, u.p⟩
      else
        let freq_hz := u.value
        if 0xffff < freq_hz then
          ⟨-1, output, ERROR u.p "Vibrato frequency too high (maximum is 65,535)"⟩
        else
          let r4 := _peek_next_char u.p '\x00'
          if r4.ret == 1 then ⟨1, output, r4.p⟩
          else if r4.ret < 0 then ⟨-1, output, ERROR r4.p "interface callback returned -1"⟩
          else if r4.c == '-' then
            let r5 := _read_next_char r4.p r4.c
            let u2 := _parse_uint_from_input r5.p 0 true
            if u2.ret != 0 then ⟨u2.ret, output, u2.p⟩
            else
              let var_hz := u2.value
              if 0xffff < var_hz then
                ⟨-1, output, ERROR u2.p "Vibrato variance too high (maximum is 65,535)"⟩
              else ⟨0, SET_VIBRATO output freq_hz var_hz, u2.p⟩
          else
            let var_hz := 0
            if 0xffff < var_hz then
              ⟨-1, output, ERROR r4.p "Vibrato variance too high (maximum is 65,535)"⟩
            else ⟨0, SET_VIBRATO output freq_hz var_hz, r4.p⟩
    else ⟨0, output, r3.p⟩

/-- Millisecond duration of a note: `(60.0f / bpm) * 4.0f / duration`,
plus half if dotted, times 1000, cast to an unsigned integer.  The C float
arithmetic is modelled exactly over `fp`. -/
def note_duration_ms (bpm duration : Nat) (dot_seen : Bool) : Nat :=
  let whole_time := ((fp.ofNat 60).div (fp.ofNat bpm)).mul (fp.ofNat 4)
  let duration_secs := whole_time.div (fp.ofNat duration)
  let duration_secs :=
    if dot_seen then duration_secs.add (duration_secs.div (fp.ofNat 2)) else duration_secs
  ((duration_secs.mul (fp.ofNat 1000)).trunc).toNat

/-- `_parse_ptttl_note`: one note (duration digits, note name, dots, octave,
vibrato suffix). -/
def _parse_ptttl_note (p : ptttl_parser_t) (output : ptttl_output_note_t) : note_res :=
  let r := _peek_next_char p '\x00'
  if r.ret == 1 then ⟨1, output, r.p⟩
  else if r.ret < 0 then ⟨-1, output, ERROR r.p "interface callback returned -1"⟩
  else
    let dur :=
      if IS_DIGIT r.c then
        let u := _parse_uint_from_input r.p r.p.default_duration false
        if u.ret != 0 then (u.ret, u.value, u.p)
        else if !(_valid_note_duration u.value) then
          ((-1 : Int), u.value, ERROR u.p "Invalid note duration (must be 1, 2, 4, 8, 16 or 32)")
        else (0, u.value, u.p)
      else ((0 : Int), r.p.default_duration, r.p)
    match dur with
    | (dret, duration, p1) =>
      if dret != 0 then ⟨dret, output, p1⟩
      else
        let rp := _parse_musical_note p1 NOTE_C
        if rp.ret != 0 then ⟨rp.ret, output, rp.p⟩
        else
          let note_pitch := rp.value
          let r2 := _peek_next_char rp.p '\x00'
          if r2.ret == 1 then ⟨1, output, r2.p⟩
          else if r2.ret < 0 then ⟨-1, output, ERROR r2.p "interface callback returned -1"⟩
          else
            let (dot_seen, p2) :=
              if r2.c == '.' then
                let rr := _read_next_char r2.p r2.c
                (true, rr.p)
              else (false, r2.p)
            let r3 := _peek_next_char p2 '\x00'
            if r3.ret == 1 then ⟨1, output, r3.p⟩
            else if r3.ret < 0 then ⟨-1, output, ERROR r3.p "interface callback returned -1"⟩
            else
              let oct :=
                if IS_DIGIT r3.c then
                  let rr := _read_next_char r3.p r3.c
                  let octave := rr.c.toNat - 48
                  if NOTE_OCTAVE_MAX < octave then
                    ((-1 : Int), octave, ERROR rr.p "Invalid octave (must be 0 through 8)")
                  else ((0 : Int), octave, rr.p)
                else ((0 : Int), r3.p.default_octave, r3.p)
              match oct with
              | (oret, octave, p3) =>
                if oret != 0 then ⟨oret, output, p3⟩
                else
                  let r4 := _peek_next_char p3 '\x00'
                  if r4.ret == 1 then ⟨1, output, r4.p⟩
                  else if r4.ret < 0 then
                    ⟨-1, output, ERROR r4.p "interface callback returned -1"⟩
                  else
                    let (dot_seen, p4) :=
                      if r4.c == '.' then
                        let rr := _read_next_char r4.p r4.c
                        (true, rr.p)
                      else (dot_seen, r4.p)
                    let nn :=
                      if note_pitch != NOTE_INVALID then
                        _note_name_to_number p4 note_pitch octave 0
                      else ⟨0, 0, p4⟩
                    if nn.ret != 0 then ⟨nn.ret, output, nn.p⟩
                    else
                      let note_number := nn.value
                      let output := SET_NOTE output note_number
                        (note_duration_ms nn.p.bpm duration dot_seen)
                      _parse_note_vibrato nn.p output

-- sanity eval: parse one note "8c#5." style

/-! ## Parser initialization (ptttl_parse_init) -/

def PTTTL_MAX_CHANNELS_PER_FILE : Nat := 16

def PTTTL_MAX_NAME_LEN : Nat := 256

/-- Name-reading loop of `ptttl_parse_init`: raw characters up to `':'`. -/
def _read_name_loop (fuel : Nat) (p : ptttl_parser_t) (name_acc : List Char) :
    Int × ptttl_parser_t :=
  match fuel with
  | 0 => (-3, p)
  | fuel + 1 =>
    let r := _read_next_char p '\x00'
    if r.ret != 0 then (r.ret, r.p)
    else if r.c == ':' then (0, { r.p with name := name_acc })
    else if name_acc.length == PTTTL_MAX_NAME_LEN - 1 then
      (-1, ERROR r.p "Maximum song name length exceeded")
    else _read_name_loop fuel r.p (name_acc ++ [r.c])

/-- Inner loop of the channel-discovery pass: scan forward to the next `'|'`
(status 0) or `';'` (status 2); status 1 is EOF, -1 is TooManyChannels. -/
def _discover_scan (fuel : Nat) (p : ptttl_parser_t) : Int × ptttl_parser_t :=
  match fuel with
  | 0 => (-3, p)
  | fuel + 1 =>
    let r := _get_next_visible_char p '\x00'
    if r.ret != 0 then (r.ret, r.p)
    else if r.c == '|' then
      if r.p.channel_count == PTTTL_MAX_CHANNELS_PER_FILE then
        (-1, ERROR r.p "Exceeded maximum channel count")
      else (0, r.p)
    else if r.c == ';' then (2, r.p)
    else _discover_scan fuel r.p

/-- Outer loop of the channel-discovery pass: record a channel cursor
snapshot, then scan to the channel separator; stop at `';'` or EOF. -/
def _discover_loop (fuel : Nat) (p : ptttl_parser_t) : int_res :=
  match fuel with
  | 0 => ⟨-3, p⟩
  | fuel + 1 =>
    let r := _eat_all_nonvisible_chars p
    if r.ret != 0 then ⟨0, r.p⟩
    else
      let s := r.p.active_stream
      let chan : ptttl_parser_input_stream_t :=
        { position := s.position, line := s.line, column := s.column, block := 0,
          have_saved_char := s.have_saved_char, saved_char := s.saved_char }
      let p2 := { r.p with channels := r.p.channels.set r.p.channel_count chan,
                           channel_count := r.p.channel_count + 1 }
      let (status, p3) := _discover_scan (p2.src.length + 2) p2
      if status == -1 then ⟨-1, p3⟩
      else if status == -3 then ⟨-3, p3⟩
      else if status == 0 then _discover_loop fuel p3
      else ⟨0, p3⟩

/-- `ptttl_parse_init` on the canonical memory input interface; builds the
parser state from scratch (fields the C code leaves to later assignments are
zero-initialized here). -/
def ptttl_parse_init (src : List Char) : int_res :=
  let p : ptttl_parser_t :=
    { src := src, input_pos := 0, name := [], bpm := 0, default_duration := 0,
      default_octave := 0, default_vibrato_freq := 0, default_vibrato_var := 0,
      error := ⟨none, 0, 0⟩, channel_count := 0, active := active_ref.main,
      stream := { position := 0, line := 1, column := 0, block := 0,
                  have_saved_char := false, saved_char := '\x00' },
      channels := List.replicate PTTTL_MAX_CHANNELS_PER_FILE default_input_stream }
  -- iface.seek(0), return value ignored
  let p := (iface_seek p 0).p
  let r := _eat_all_nonvisible_chars p
  if r.ret == 1 then ⟨-1, ERROR r.p "Unexpected EOF encountered"⟩
  else if r.ret < 0 then ⟨-1, ERROR r.p "interface callback returned -1"⟩
  else
    let (nret, p1) := _read_name_loop (r.p.src.length + 2) r.p []
    if nret == -1 then ⟨-1, p1⟩
    else if nret == -3 then ⟨-3, p1⟩
    else if nret == 1 then ⟨-1, ERROR p1 "Unexpected EOF encountered"⟩
    else if nret < 0 then ⟨-1, ERROR p1 "interface callback returned -1"⟩
    else
      let rs := _parse_settings p1
      if rs.ret != 0 then ⟨-1, rs.p⟩
      else _discover_loop (rs.p.src.length + 2) rs.p

/-! ## Block jumping and ptttl_parse_next -/

/-- Highest channel index below `channel_idx` whose cursor is already in
`target_block` (the C loop runs `eidx` from `channel_idx - 1` down to 0). -/
def _find_earlier_stream (p : ptttl_parser_t) (channel_idx target_block : Nat) :
    Option Nat :=
  (List.range channel_idx).reverse.find?
    (fun e => (p.channels.getD e default_input_stream).block == target_block)

/-- Index of the higher channel with the furthest position in the current
block, if any is strictly past the active position (C keeps the last strict
improvement while scanning `fidx` upward). -/
def _find_furthest_stream (p : ptttl_parser_t) (channel_idx : Nat) : Option Nat :=
  let r := (List.range p.channel_count).foldl
    (fun acc fidx =>
      if channel_idx + 1 ≤ fidx then
        let s := p.channels.getD fidx default_input_stream
        if s.block == p.active_stream.block && acc.2 < s.position then (some fidx, s.position)
        else acc
      else acc)
    ((none : Option Nat), p.active_stream.position)
  r.1

/-- Scan loop searching for the `';'` that ends the current block. -/
def _find_semicolon_loop (fuel : Nat) (p : ptttl_parser_t) : int_res :=
  match fuel with
  | 0 => ⟨-3, p⟩
  | fuel + 1 =>
    let r := _get_next_visible_char p '\x00'
    if r.ret != 0 then ⟨r.ret, r.p⟩
    else if r.c == ';' then ⟨0, r.p⟩
    else _find_semicolon_loop fuel r.p

/-- Inner loop of the pipe-skipping pass: status 0 when a `'|'` was found,
-1 (with the inconsistent-channel-count error) when `';'` appears first. -/
def _skip_pipe_scan (fuel : Nat) (p : ptttl_parser_t) : int_res :=
  match fuel with
  | 0 => ⟨-3, p⟩
  | fuel + 1 =>
    let r := _get_next_visible_char p '\x00'
    if r.ret != 0 then ⟨r.ret, r.p⟩
    else if r.c == '|' then ⟨0, r.p⟩
    else if r.c == ';' then
      ⟨-1, ERROR r.p "Unexpected end of block (all blocks must have the same channel count)"⟩
    else _skip_pipe_scan fuel r.p

/-- The `for (i = 0; i < pipes_to_skip; i++)` loop; like the C code it keeps
iterating after EOF (the inner scan then exits immediately each time), and
aborts only on the `';'` error. -/
def _skip_pipes (pipes : Nat) (p : ptttl_parser_t) (ret : Int) : int_res :=
  match pipes with
  | 0 => ⟨ret, p⟩
  | pipes + 1 =>
    let r := _skip_pipe_scan (p.src.length + 2) p
    if r.ret == -1 then r
    else _skip_pipes pipes r.p r.ret

/-- `_jump_to_next_block`. -/
def _jump_to_next_block (p : ptttl_parser_t) (channel_idx : Nat) (find_semicolon : Bool) :
    int_res :=
  let target_block := p.active_stream.block + 1
  match _find_earlier_stream p channel_idx target_block with
  | none =>
    let step1 : int_res :=
      if find_semicolon then
        let pA :=
          match _find_furthest_stream p channel_idx with
          | none => ⟨(0 : Int), p⟩
          | some fidx =>
            let furthest := p.channels.getD fidx default_input_stream
            let rs := _seek_wrapper p furthest.position
            if rs.ret == 1 then (⟨1, rs.p⟩ : int_res)
            else if rs.ret < 0 then ⟨-1, ERROR rs.p "interface callback returned -1"⟩
            else ⟨0, rs.p.set_active furthest⟩
        if pA.ret != 0 then pA
        else _find_semicolon_loop (pA.p.src.length + 2) pA.p
      else ⟨0, p⟩
    -- the find-semicolon scan can exit on EOF; like the C code, fall through
    if step1.ret == -1 || step1.ret == -3 then step1
    else
      let r := _eat_all_nonvisible_chars step1.p
      if r.ret != 0 then r
      else if channel_idx == 0 then
        let s := r.p.active_stream
        ⟨0, r.p.set_active { s with block := target_block }⟩
      else
        let rp := _skip_pipes channel_idx r.p 0
        if rp.ret == -1 || rp.ret == -3 then rp
        else
          let s := rp.p.active_stream
          let p2 := rp.p.set_active { s with block := target_block }
          _eat_all_nonvisible_chars p2
  | some eidx =>
    let earlier := p.channels.getD eidx default_input_stream
    let pipes_to_skip := channel_idx - eidx
    let rs := _seek_wrapper p earlier.position
    if rs.ret == 1 then ⟨1, rs.p⟩
    else if rs.ret < 0 then ⟨-1, ERROR rs.p "interface callback returned -1"⟩
    else
      let p1 := rs.p.set_active earlier
      let rp := _skip_pipes pipes_to_skip p1 0
      if rp.ret == -1 || rp.ret == -3 then rp
      else
        let s := rp.p.active_stream
        let p2 := rp.p.set_active { s with block := target_block }
        _eat_all_nonvisible_chars p2

def clear_saved_char (p : ptttl_parser_t) : ptttl_parser_t :=
  let s := p.active_stream
  p.set_active { s with have_saved_char := false }

/-- `ptttl_parse_next`. -/
def ptttl_parse_next (p : ptttl_parser_t) (channel_idx : Nat) (note : ptttl_output_note_t) :
    note_res :=
  if p.channel_count ≤ channel_idx then ⟨-1, note, ERROR p "Invalid channel requested"⟩
  else
    let p := { p with active := active_ref.chan channel_idx }
    let rs := _seek_wrapper p p.active_stream.position
    if rs.ret == 1 then ⟨1, note, rs.p⟩
    else if rs.ret < 0 then ⟨-1, note, ERROR rs.p "interface callback returned -1"⟩
    else
      let rn := _parse_ptttl_note rs.p note
      if rn.ret != 0 then rn
      else
        let rv := _get_next_visible_char rn.p '\x00'
        if rv.ret == 1 then ⟨0, rn.note, clear_saved_char rv.p⟩
        else if rv.ret == 0 then
          if rv.c == '|' then
            let rj := _jump_to_next_block rv.p channel_idx true
            if rj.ret == 1 then ⟨0, rn.note, clear_saved_char rj.p⟩
            else ⟨rj.ret, rn.note, rj.p⟩
          else if rv.c == ';' then
            let rj := _jump_to_next_block rv.p channel_idx false
            if rj.ret == 1 then ⟨0, rn.note, clear_saved_char rj.p⟩
            else ⟨rj.ret, rn.note, rj.p⟩
          else if rv.c == ',' then
            let re := _eat_all_nonvisible_chars rv.p
            if re.ret == 1 then ⟨0, rn.note, clear_saved_char re.p⟩
            else ⟨re.ret, rn.note, re.p⟩
          else ⟨-1, rn.note, ERROR rv.p "Expecting '|', ';', ',', or note vibrato settings"⟩
        else ⟨rv.ret, rn.note, rv.p⟩

/-! ## Whole-parse runner for concrete sources -/

/-- One entry per `ptttl_parse_next` call: return code, key number, duration
field, vibrato frequency, vibrato variance. -/
def call_entry (r : note_res) : Int × Nat × Nat × Nat × Nat :=
  (r.ret, PTTTL_NOTE_VALUE r.note, PTTTL_NOTE_DURATION r.note,
   PTTTL_NOTE_VIBRATO_FREQ r.note, PTTTL_NOTE_VIBRATO_VAR r.note)

structure run_res where
  init_ret : Int
  channel_count : Nat
  results : List (Int × Nat × Nat × Nat × Nat)
  error_message : Option String
deriving DecidableEq

/-- Initialize the parser on `src` and issue one `ptttl_parse_next` per entry
of `calls` (each entry a channel index), collecting the outcomes. -/
def run_ptttl (src : String) (calls : List Nat) : run_res :=
  let ri := ptttl_parse_init src.toList
  if ri.ret != 0 then ⟨ri.ret, ri.p.channel_count, [], ri.p.error.error_message⟩
  else
    let step := calls.foldl
      (fun (acc : ptttl_parser_t × List (Int × Nat × Nat × Nat × Nat)) chan =>
        let r := ptttl_parse_next acc.1 chan ⟨0, 0⟩
        (r.p, acc.2 ++ [call_entry r]))
      (ri.p, [])
    ⟨0, step.1.channel_count, step.2, step.1.error.error_message⟩

/-! ## Sample generator (ptttl_sample_generator.c) -/

def MAX_SAMPLE_VALUE : Int := 0x7FFF

/-- The float literal `3.14159265358979323846f` as an exact decimal. -/
def PI : fp := ⟨314159265358979323846, 100000000000000000000⟩

/-- Modelled from the spec: `PTTTL_SAMPLE_GENERATOR_NUM_HARMONICS` (the fixed
maximum harmonic count used by the square/sawtooth/triangle synthesizers) is
referenced by src/c_implementation/src/ptttl_sample_generator.c but its
defining header is not part of the sources; the spec only says the harmonic
count "is capped both by a fixed maximum and by the Nyquist-derived maximum".
No claim below depends on its value. -/
def PTTTL_SAMPLE_GENERATOR_NUM_HARMONICS : Nat := 64

inductive waveform_type where
  | sine : waveform_type
  | triangle : waveform_type
  | sawtooth : waveform_type
  | square : waveform_type
deriving DecidableEq

def WAVEFORM_TYPE_COUNT : Nat := 4

def DEFAULT_WAVEFORM_TYPE : waveform_type := waveform_type.sine

/-- `_sine_generator`: the 5-step polynomial sine approximation (phase in
turns); arguments `p`/`s` are unused like in the C code. -/
def _sine_generator (x : fp) (p : fp) (s : Nat) : fp :=
  let _ := p
  let _ := s
  let x := if x.blt fp.zero then (fp.sub ⟨1, 2⟩ x) else x
  let x := x.sub (fp.add ⟨1, 2⟩ (fp.ofInt x.trunc))
  let x := x.mul ((fp.ofNat 16).mul ((if x.blt fp.zero then x.neg else x).sub ⟨1, 2⟩))
  let x := x.add ((⟨225, 1000⟩ : fp).mul (((if x.blt fp.zero then x.neg else x).sub (fp.ofNat 1)).mul x))
  x

/-- Harmonic count used by the square/sawtooth generators:
`(int)((s * 0.5f) / p)`, at least 1, at most the fixed maximum. -/
def _harmonic_count (p : fp) (s : Nat) : Nat :=
  let maxh := (((fp.ofNat s).mul ⟨1, 2⟩).div p).trunc
  let maxh := if maxh < 1 then 1 else maxh
  if maxh.toNat < PTTTL_SAMPLE_GENERATOR_NUM_HARMONICS then maxh.toNat
  else PTTTL_SAMPLE_GENERATOR_NUM_HARMONICS

/-- Summation loop of `_square_generator` (odd harmonics only). -/
def _square_sum (fuel : Nat) (n hcount : Nat) (x : fp) (sum : fp) : fp :=
  match fuel with
  | 0 => sum
  | fuel + 1 =>
    if n ≤ hcount then
      _square_sum fuel (n + 2) hcount x
        (sum.add (((fp.ofNat 4).div (PI.mul (fp.ofNat n))).mul
          (_sine_generator ((fp.ofNat n).mul x) fp.zero 0)))
    else sum

def _square_generator (x : fp) (p : fp) (s : Nat) : fp :=
  let x := x.sub (fp.ofInt x.trunc)
  let x := if x.blt fp.zero then x.add (fp.ofNat 1) else x
  let hcount := _harmonic_count p s
  _square_sum (hcount + 2) 1 hcount x fp.zero

/-- Summation loop of `_sawtooth_generator` (all harmonics, alternating). -/
def _sawtooth_sum (fuel : Nat) (n hcount : Nat) (x : fp) (sum : fp) : fp :=
  match fuel with
  | 0 => sum
  | fuel + 1 =>
    if n ≤ hcount then
      let sign : fp := if n % 2 == 1 then fp.ofNat 1 else fp.ofInt (-1)
      _sawtooth_sum fuel (n + 1) hcount x
        (sum.add ((sign.mul ((fp.ofNat 2).div (PI.mul (fp.ofNat n)))).mul
          (_sine_generator ((fp.ofNat n).mul x) fp.zero 0)))
    else sum

def _sawtooth_generator (x : fp) (p : fp) (s : Nat) : fp :=
  let x := x.sub (fp.ofInt x.trunc)
  let x := if x.blt fp.zero then x.add (fp.ofNat 1) else x
  let hcount := _harmonic_count p s
  _sawtooth_sum (hcount + 2) 1 hcount x fp.zero

/-- Summation loop of `_triangle_generator` (`k` from 0, odd harmonics). -/
def _triangle_sum (fuel : Nat) (k : Nat) (x : fp) (p : fp) (s : Nat) (value : fp) : fp :=
  match fuel with
  | 0 => value
  | fuel + 1 =>
    if k < PTTTL_SAMPLE_GENERATOR_NUM_HARMONICS then
      let n := 2 * k + 1
      let sign : fp := if k % 2 == 1 then fp.ofInt (-1) else fp.ofNat 1
      _triangle_sum fuel (k + 1) x p s
        (value.add ((sign.mul (_sine_generator ((fp.ofNat n).mul x) p s)).div
          (fp.ofNat (n * n))))
    else value

def _triangle_generator (x : fp) (p : fp) (s : Nat) : fp :=
  let value := _triangle_sum (PTTTL_SAMPLE_GENERATOR_NUM_HARMONICS + 1) 0 x p s fp.zero
  value.mul ((fp.ofNat 8).div (PI.mul PI))

/-- Dispatch table `_waveform_generators`. -/
def _waveform_generators (t : waveform_type) (x : fp) (p : fp) (s : Nat) : fp :=
  match t with
  | waveform_type.sine => _sine_generator x p s
  | waveform_type.triangle => _triangle_generator x p s
  | waveform_type.sawtooth => _sawtooth_generator x p s
  | waveform_type.square => _square_generator x p s

def _raise_powerof2 (exp : Nat) : Nat :=
  match exp with
  | 0 => 1
  | e + 1 => _raise_powerof2 e * 2

def _generate_waveform_point (wgen : waveform_type) (sample_rate : Nat) (freq : fp)
    (sine_index : Nat) : fp :=
  let sine_state := freq.mul ((fp.ofNat sine_index).div (fp.ofNat sample_rate))
  _waveform_generators wgen sine_state freq sample_rate

def _generate_waveform_sample (wgen : waveform_type) (sample_rate : Nat) (freq : fp)
    (sine_index : Nat) : Int :=
  let sample_norm := _generate_waveform_point wgen sample_rate freq sine_index
  (sample_norm.mul (fp.ofInt MAX_SAMPLE_VALUE)).trunc

/-- `note_pitches` table of `_note_number_to_pitch` (float literals modelled
as exact decimals). -/
def note_pitches : List fp :=
  [⟨261625565301, 1000000000⟩, ⟨277182630977, 1000000000⟩, ⟨293664767918, 1000000000⟩,
   ⟨311126983723, 1000000000⟩, ⟨329627556913, 1000000000⟩, ⟨349228231433, 1000000000⟩,
   ⟨369994422712, 1000000000⟩, ⟨391995435982, 1000000000⟩, ⟨415304697580, 1000000000⟩,
   ⟨440000000000, 1000000000⟩, ⟨466163761518, 1000000000⟩, ⟨493883301256, 1000000000⟩]

def NOTE_PITCH_COUNT : Nat := 12

def _note_number_to_pitch (note_number : Nat) : fp :=
  let octave := (note_number + 20) / 12 - 1
  let note_pitch_index := (note_number + 8) % NOTE_PITCH_COUNT
  let result := note_pitches.getD note_pitch_index fp.zero
  if octave < 4 then result.div (fp.ofNat (_raise_powerof2 (4 - octave)))
  else if 4 < octave then result.mul (fp.ofNat (_raise_powerof2 (octave - 4)))
  else result

/-! ## Generator state -/

structure ptttl_sample_generator_config_t where
  sample_rate : Nat
  attack_samples : Nat
  decay_samples : Nat
  amplitude : fp
deriving DecidableEq

def PTTTL_SAMPLE_GENERATOR_CONFIG_DEFAULT : ptttl_sample_generator_config_t :=
  ⟨44100, 100, 500, ⟨8, 10⟩⟩

structure ptttl_note_stream_t where
  wgen : waveform_type
  vibrato_frequency : Nat
  vibrato_variance : Nat
  sine_index : Nat
  start_sample : Nat
  num_samples : Nat
  attack : Nat
  decay : Nat
  note_number : Nat
  pitch_hz : fp
  phasor_state : fp
deriving DecidableEq

def default_note_stream : ptttl_note_stream_t :=
  ⟨waveform_type.sine, 0, 0, 0, 0, 0, 0, 0, 0, fp.zero, fp.zero⟩

structure ptttl_sample_generator_t where
  current_sample : Nat
  note_streams : List ptttl_note_stream_t
  channel_finished : List Bool
  config : ptttl_sample_generator_config_t
  parser : ptttl_parser_t
deriving DecidableEq

/-- ERROR macro, generator variant (no column-zero adjustment). -/
def GERROR (p : ptttl_parser_t) (msg : String) : ptttl_parser_t :=
  let s := p.active_stream
  { p with error := ⟨some msg, s.line, s.column⟩ }

/-- Clamp step of `_load_note_stream`: when `attack + decay` (32-bit unsigned
sum) exceeds the note length, subtract the excess from the larger of the two
(saturating at zero). -/
def _clamp_attack_decay (attack decay num_samples : Nat) : Nat × Nat :=
  let sum := (attack + decay) % 4294967296
  if num_samples < sum then
    let diff := sum - num_samples
    if decay < attack then
      ((if diff < attack then attack - diff else 0), decay)
    else
      (attack, (if diff < decay then decay - diff else 0))
  else (attack, decay)

/-- `_load_note_stream`. -/
def _load_note_stream (generator : ptttl_sample_generator_t) (note : ptttl_output_note_t)
    (note_stream : ptttl_note_stream_t) : ptttl_note_stream_t :=
  let ns := { note_stream with sine_index := 0,
                               start_sample := generator.current_sample,
                               phasor_state := fp.zero }
  let time_ms := PTTTL_NOTE_DURATION note
  let num_samples :=
    ((fp.ofNat time_ms).mul ((fp.ofNat generator.config.sample_rate).div (fp.ofNat 1000))).trunc.toNat
  let ns := { ns with num_samples := num_samples }
  let (attack, decay) :=
    _clamp_attack_decay generator.config.attack_samples generator.config.decay_samples
      ns.num_samples
  let ns := { ns with attack := attack, decay := decay,
                      vibrato_frequency := PTTTL_NOTE_VIBRATO_FREQ note,
                      vibrato_variance := PTTTL_NOTE_VIBRATO_VAR note,
                      note_number := PTTTL_NOTE_VALUE note }
  if ns.note_number != 0 then
    { ns with pitch_hz := _note_number_to_pitch ns.note_number }
  else ns

/-- Per-channel loop of `ptttl_sample_generator_create`. -/
def _create_loop (remaining chan : Nat) (g : ptttl_sample_generator_t) :
    Int × ptttl_sample_generator_t :=
  match remaining with
  | 0 => (0, g)
  | remaining + 1 =>
    let r := ptttl_parse_next g.parser chan ⟨0, 0⟩
    let g := { g with parser := r.p }
    if r.ret != 0 then (r.ret, g)
    else
      let ns := _load_note_stream g r.note (g.note_streams.getD chan default_note_stream)
      let ns := { ns with wgen := DEFAULT_WAVEFORM_TYPE }
      let g := { g with note_streams := g.note_streams.set chan ns }
      _create_loop remaining (chan + 1) g

/-- `ptttl_sample_generator_create` (the generator struct the C caller passes
in uninitialized is modelled zero/default-initialized). -/
def ptttl_sample_generator_create (parser : ptttl_parser_t)
    (config : ptttl_sample_generator_config_t) : Int × ptttl_sample_generator_t :=
  let g : ptttl_sample_generator_t :=
    { current_sample := 0,
      note_streams := List.replicate PTTTL_MAX_CHANNELS_PER_FILE default_note_stream,
      channel_finished := List.replicate PTTTL_MAX_CHANNELS_PER_FILE false,
      config := config, parser := parser }
  if parser.channel_count == 0 then
    (-1, { g with parser := GERROR g.parser "PTTTL parser object has a channel count of 0" })
  else if (fp.ofNat 1).blt config.amplitude || config.amplitude.blt fp.zero then
    (-1, { g with parser := GERROR g.parser "Sample generator amplitude must be between 0.0 - 1.0" })
  else
    let g := { g with current_sample := 0 }
    _create_loop parser.channel_count 0 g

/-- `_generate_channel_sample`: one sample for one channel; returns the C
return code, the channel's float sample, and the updated generator. -/
def _generate_channel_sample (g : ptttl_sample_generator_t) (channel_idx : Nat) :
    Int × fp × ptttl_sample_generator_t :=
  let stream := g.note_streams.getD channel_idx default_note_stream
  let (sample, g) :=
    if stream.note_number == 0 then (fp.zero, g)
    else
      let (raw_sample, stream) :=
        if stream.vibrato_frequency != 0 || stream.vibrato_variance != 0 then
          let vsine := _generate_waveform_point waveform_type.sine g.config.sample_rate
            (fp.ofNat stream.vibrato_frequency) stream.sine_index
          let pitch_change_hz := (fp.ofNat stream.vibrato_variance).mul vsine
          let note_pitch_hz := stream.pitch_hz.add pitch_change_hz
          let vsample := _waveform_generators stream.wgen stream.phasor_state note_pitch_hz
            g.config.sample_rate
          let phasor_inc := note_pitch_hz.div (fp.ofNat g.config.sample_rate)
          let ph := stream.phasor_state.add phasor_inc
          let ph := if (fp.ofNat 1).ble ph then ph.sub (fp.ofNat 1) else ph
          ((vsample.mul (fp.ofInt MAX_SAMPLE_VALUE)).trunc,
           { stream with phasor_state := ph })
        else
          (_generate_waveform_sample stream.wgen g.config.sample_rate stream.pitch_hz
            stream.sine_index, stream)
      let stream := { stream with sine_index := stream.sine_index + 1 }
      let samples_elapsed := g.current_sample - stream.start_sample
      let samples_remaining := stream.num_samples - samples_elapsed
      let raw_sample :=
        if samples_elapsed < stream.attack then
          ((fp.ofInt raw_sample).mul
            ((fp.ofNat samples_elapsed).div (fp.ofNat stream.attack))).trunc
        else if samples_remaining < stream.decay then
          ((fp.ofInt raw_sample).mul
            ((fp.ofNat samples_remaining).div (fp.ofNat stream.decay))).trunc
        else raw_sample
      let sample := (fp.ofInt raw_sample).mul g.config.amplitude
      (sample, { g with note_streams := g.note_streams.set channel_idx stream })
  -- check if last sample for this note stream
  let stream := g.note_streams.getD channel_idx default_note_stream
  if stream.num_samples ≤ g.current_sample - stream.start_sample then
    let r := ptttl_parse_next g.parser channel_idx ⟨0, 0⟩
    let g := { g with parser := r.p }
    if r.ret == 0 then
      let ns := _load_note_stream g r.note (g.note_streams.getD channel_idx default_note_stream)
      (0, sample, { g with note_streams := g.note_streams.set channel_idx ns })
    else (r.ret, sample, g)
  else (0, sample, g)

/-- Accumulator of the per-sample channel loop. -/
structure tick_acc where
  ret : Int
  sum : fp
  provided : Nat
  g : ptttl_sample_generator_t
deriving DecidableEq

/-- One pass over all channels for a single output sample. -/
def _tick_channels (remaining chan : Nat) (g : ptttl_sample_generator_t) (sum : fp)
    (provided : Nat) : tick_acc :=
  match remaining with
  | 0 => ⟨0, sum, provided, g⟩
  | remaining + 1 =>
    if g.channel_finished.getD chan false then
      _tick_channels remaining (chan + 1) g sum provided
    else
      let provided := provided + 1
      let (ret, chan_sample, g) := _generate_channel_sample g chan
      if ret < 0 then ⟨ret, sum, provided, g⟩
      else
        let g := { g with channel_finished := g.channel_finished.set chan (ret == 1) }
        _tick_channels remaining (chan + 1) g (sum.add chan_sample) provided

/-- C cast `(int16_t)` of the mixed float sample: truncate toward zero, then
wrap into the signed 16-bit range. -/
def cast_int16 (q : fp) : Int := (q.trunc + 32768) % 65536 - 32768

inductive tick_result where
  | err : ptttl_sample_generator_t → tick_result
  | done : ptttl_sample_generator_t → tick_result
  | sample : Int → ptttl_sample_generator_t → tick_result
deriving DecidableEq

/-- Body of one iteration of the `ptttl_sample_generator_generate` loop. -/
def _generate_tick (g : ptttl_sample_generator_t) : tick_result :=
  let a := _tick_channels g.parser.channel_count 0 g fp.zero 0
  if a.ret < 0 then tick_result.err a.g
  else if a.provided == 0 then tick_result.done a.g
  else
    let v := cast_int16 (a.sum.div (fp.ofNat a.g.parser.channel_count))
    tick_result.sample v { a.g with current_sample := a.g.current_sample + 1 }

structure gen_res where
  status : Int
  samples : List Int
  g : ptttl_sample_generator_t
deriving DecidableEq

/-- `ptttl_sample_generator_generate` requesting `num_samples` samples:
status 0 = all requested samples produced, 1 = output exhausted ("done"),
-1 = error. -/
def ptttl_sample_generator_generate (num_samples : Nat) (g : ptttl_sample_generator_t) :
    gen_res :=
  match num_samples with
  | 0 => ⟨0, [], g⟩
  | n + 1 =>
    match _generate_tick g with
    | tick_result.err g' => ⟨-1, [], g'⟩
    | tick_result.done g' => ⟨1, [], g'⟩
    | tick_result.sample v g' =>
      let r := ptttl_sample_generator_generate n g'
      ⟨r.status, v :: r.samples, r.g⟩

structure chunks_res where
  samples : List Int
  g : ptttl_sample_generator_t
deriving DecidableEq

/-- Repeated `generate` calls with the given chunk sizes. -/
def run_generate_chunks (chunks : List Nat) (g : ptttl_sample_generator_t) : chunks_res :=
  match chunks with
  | [] => ⟨[], g⟩
  | n :: rest =>
    let r := ptttl_sample_generator_generate n g
    let r2 := run_generate_chunks rest r.g
    ⟨r.samples ++ r2.samples, r2.g⟩

/-- The `active` reference denotes a valid stream. -/
def active_wf (p : ptttl_parser_t) : Prop :=
  ∀ i, p.active = active_ref.chan i → i < p.channels.length

/-- Post-state of the digit loop: `k` digits and the stopping character were
taken from the interface; the stopping character sits in the pushback slot. -/
def uint_end (p : ptttl_parser_t) (k : Nat) (c : Char) : ptttl_parser_t :=
  ({ p with input_pos := p.input_pos + k + 1 }).set_active
    { p.active_stream with
      position := p.active_stream.position + k + 1,
      column := p.active_stream.column + k,
      have_saved_char := true, saved_char := c }

/-- Post-state of `_parse_uint_from_input` entered with the first digit in
the pushback slot: `k` further digits were read and the stopping character
is left in the pushback slot. -/
def uint_from_end (p : ptttl_parser_t) (k : Nat) (c : Char) : ptttl_parser_t :=
  ({ p with input_pos := p.input_pos + k + 1 }).set_active
    { p.active_stream with
      position := p.active_stream.position + k + 1,
      column := p.active_stream.column + k + 1,
      have_saved_char := true, saved_char := c }

def pitch_mono_check : Bool :=
  (List.range 89).all fun m =>
    (List.range 89).all fun n =>
      !(decide (1 ≤ m) && decide (m < n)) ||
        fp.ble (_note_number_to_pitch m) (_note_number_to_pitch n)


/-! ## Concrete inputs used by the claim witnesses and counterexamples -/

/-- Generator for the C3 counterexample: 10 attack + 5 decay samples against
a 3 ms note at 1000 Hz sample rate (a 3-sample note). -/
def c3_generator : ptttl_sample_generator_t :=
  { current_sample := 0,
    note_streams := List.replicate PTTTL_MAX_CHANNELS_PER_FILE default_note_stream,
    channel_finished := List.replicate PTTTL_MAX_CHANNELS_PER_FILE false,
    config := ⟨1000, 10, 5, ⟨8, 10⟩⟩,
    parser := (ptttl_parse_init "x:b=8000:32c;".toList).p }

/-- A 3 ms note (key 40). -/
def c3_note : ptttl_output_note_t := SET_NOTE ⟨0, 0⟩ 40 3

/-- Same generator with attack 2 / decay 1, satisfying the amended C3
hypothesis. -/
def c3_amended_generator : ptttl_sample_generator_t :=
  { c3_generator with config := ⟨1000, 2, 1, ⟨8, 10⟩⟩ }

/-- A small fully-initialized generator (one rest note) for the C5 witness. -/
def c5_generator : ptttl_sample_generator_t :=
  (ptttl_sample_generator_create (ptttl_parse_init "x:b=6000:32p;".toList).p
    ⟨4000, 0, 0, ⟨8, 10⟩⟩).2

/-- Parser state positioned at a vibrato suffix with explicit frequency and
no variance part, for the C9 witness. -/
def c9_input : ptttl_parser_t :=
  { src := "v12,c".toList, input_pos := 0, name := [], bpm := 100,
    default_duration := 8, default_octave := 4, default_vibrato_freq := 7,
    default_vibrato_var := 10, error := ⟨none, 0, 0⟩, channel_count := 1,
    active := active_ref.main,
    stream := { position := 0, line := 1, column := 0, block := 0,
                have_saved_char := false, saved_char := '\x00' },
    channels := List.replicate PTTTL_MAX_CHANNELS_PER_FILE default_input_stream }

/-- The same state on a bare `v` suffix. -/
def c9_input_bare : ptttl_parser_t := { c9_input with src := "v,c".toList }

/-! ## Chunking lemmas (claim C5) -/

theorem tick_channels_provided_le (remaining : Nat) :
    ∀ chan g sum provided,
      provided ≤ (_tick_channels remaining chan g sum provided).provided := by
  induction remaining with
  | zero => intro chan g sum provided; simp [_tick_channels]
  | succ n ih =>
    intro chan g sum provided
    simp only [_tick_channels]
    split_ifs
    · exact ih ..
    · exact Nat.le_succ provided
    · exact Nat.le_trans (Nat.le_succ provided) (ih ..)

theorem tick_channels_stuck (remaining : Nat) :
    ∀ chan g sum provided,
      (_tick_channels remaining chan g sum provided).provided = provided →
      _tick_channels remaining chan g sum provided = ⟨0, sum, provided, g⟩ := by
  induction remaining with
  | zero => intro chan g sum provided _; simp [_tick_channels]
  | succ n ih =>
    intro chan g sum provided h
    simp only [_tick_channels] at h ⊢
    split_ifs at h ⊢
    · exact ih _ _ _ _ h
    · exfalso
      simp only at h
      omega
    · exfalso
      have := tick_channels_provided_le n (chan + 1)
        { (_generate_channel_sample g chan).2.2 with
          channel_finished :=
            (_generate_channel_sample g chan).2.2.channel_finished.set chan
              ((_generate_channel_sample g chan).1 == 1) }
        (sum.add (_generate_channel_sample g chan).2.1) (provided + 1)
      rw [h] at this
      omega

theorem generate_succ (n : Nat) (g : ptttl_sample_generator_t) :
    ptttl_sample_generator_generate (n + 1) g =
      match _generate_tick g with
      | tick_result.err g' => ⟨-1, [], g'⟩
      | tick_result.done g' => ⟨1, [], g'⟩
      | tick_result.sample v g' =>
        let r := ptttl_sample_generator_generate n g'
        ⟨r.status, v :: r.samples, r.g⟩ := rfl

theorem generate_tick_done_eq {g g2 : ptttl_sample_generator_t}
    (h : _generate_tick g = tick_result.done g2) : g2 = g := by
  simp only [_generate_tick] at h
  split at h
  · simp at h
  · split at h
    · rename_i hprov
      have := tick_channels_stuck g.parser.channel_count 0 g fp.zero 0 (by
        simpa using hprov)
      rw [this] at h
      simpa using h.symm
    · simp at h

theorem generate_done_stable {g g2 : ptttl_sample_generator_t}
    (h : _generate_tick g = tick_result.done g2) (n : Nat) :
    ptttl_sample_generator_generate n g =
      ⟨if n = 0 then 0 else 1, [], g⟩ := by
  have hg : g2 = g := generate_tick_done_eq h
  rw [hg] at h
  cases n with
  | zero => simp [ptttl_sample_generator_generate]
  | succ m => simp [generate_succ, h]

theorem generate_split (n : Nat) :
    ∀ m g, (ptttl_sample_generator_generate (n + m) g).status ≠ -1 →
      (ptttl_sample_generator_generate (n + m) g).samples =
        (ptttl_sample_generator_generate n g).samples ++
          (ptttl_sample_generator_generate m
            (ptttl_sample_generator_generate n g).g).samples ∧
      (ptttl_sample_generator_generate m
        (ptttl_sample_generator_generate n g).g).status ≠ -1 := by
  induction n with
  | zero =>
    intro m g h
    simp only [Nat.zero_add] at h ⊢
    simp only [ptttl_sample_generator_generate]
    exact ⟨rfl, h⟩
  | succ k ih =>
    intro m g h
    have harith : k + 1 + m = (k + m) + 1 := by omega
    rw [harith] at h ⊢
    cases htick : _generate_tick g with
    | err g' =>
      exfalso
      simp [generate_succ, htick] at h
    | done g' =>
      have hg : g' = g := generate_tick_done_eq htick
      rw [hg] at htick
      have hbig := generate_done_stable htick ((k + m) + 1)
      have hk1 := generate_done_stable htick (k + 1)
      have hm := generate_done_stable htick m
      rw [hbig, hk1]
      refine ⟨by simp [hm], ?_⟩
      simp only [hm]
      split <;> simp
    | sample v g' =>
      simp only [generate_succ, htick] at h ⊢
      have := ih m g' (by simpa using h)
      exact ⟨by simp [this.1], this.2⟩

/-- C5: generating samples in arbitrary chunk sizes is observationally
transparent: for every generator state and every list of chunk sizes, the
concatenation of the chunked outputs equals the output of a single call
requesting the sum of the chunk sizes, provided the run does not hit a
parse/read error (status -1), in which case generation aborts mid-sample. -/
theorem run_chunks_eq_single (chunks : List Nat) :
    ∀ g : ptttl_sample_generator_t,
      (ptttl_sample_generator_generate chunks.sum g).status ≠ -1 →
      (run_generate_chunks chunks g).samples =
        (ptttl_sample_generator_generate chunks.sum g).samples := by
  induction chunks with
  | nil =>
    intro g _
    simp [run_generate_chunks, ptttl_sample_generator_generate, List.sum_nil]
  | cons c rest ih =>
    intro g h
    have hsum : (c :: rest).sum = c + rest.sum := by simp
    rw [hsum] at h ⊢
    have hsplit := generate_split c rest.sum g h
    simp only [run_generate_chunks]
    rw [hsplit.1, ih _ hsplit.2]

/-! ## Attack/decay clamp lemmas (claim C3) -/

theorem clamp_attack_decay_le (attack decay num a d : Nat)
    (hc : _clamp_attack_decay attack decay num = (a, d))
    (hof : attack + decay < 4294967296) (hmin : min attack decay ≤ num) :
    a + d ≤ num := by
  simp only [_clamp_attack_decay] at hc
  split_ifs at hc <;> (injection hc with h1 h2; omega)

theorem load_note_stream_fields (g : ptttl_sample_generator_t) (note : ptttl_output_note_t)
    (old : ptttl_note_stream_t) :
    ((_load_note_stream g note old).attack, (_load_note_stream g note old).decay) =
      _clamp_attack_decay g.config.attack_samples g.config.decay_samples
        (_load_note_stream g note old).num_samples := by
  unfold _load_note_stream
  rcases hc : _clamp_attack_decay g.config.attack_samples g.config.decay_samples
    ((fp.ofNat (PTTTL_NOTE_DURATION note)).mul
      ((fp.ofNat g.config.sample_rate).div (fp.ofNat 1000))).trunc.toNat with ⟨a, d⟩
  simp only [hc]
  split <;> simp [hc]

/-- C3 (amended): after `_load_note_stream`, effective attack + effective
decay is at most the stream's `num_samples`, provided the configured
`attack_samples + decay_samples` does not overflow a 32-bit unsigned sum and
the smaller of the two does not itself exceed the note length.  (As stated,
the claim is false: the clamp subtracts the excess from the larger side only,
so when `min(attack, decay) > num_samples` the smaller side alone still
exceeds the note length; see the counterexample.) -/
theorem load_note_stream_attack_decay_le (g : ptttl_sample_generator_t)
    (note : ptttl_output_note_t) (old : ptttl_note_stream_t)
    (hof : g.config.attack_samples + g.config.decay_samples < 4294967296)
    (hmin : min g.config.attack_samples g.config.decay_samples
      ≤ (_load_note_stream g note old).num_samples) :
    (_load_note_stream g note old).attack + (_load_note_stream g note old).decay
      ≤ (_load_note_stream g note old).num_samples := by
  have h := load_note_stream_fields g note old
  exact clamp_attack_decay_le _ _ _ _ _ h.symm hof hmin

/-! ## Duration-field lemmas (claims C4, C10) -/

theorem SET_NOTE_duration_field (note : ptttl_output_note_t) (v d : Nat) :
    PTTTL_NOTE_DURATION (SET_NOTE note v d) = d % 65536 := by
  unfold PTTTL_NOTE_DURATION SET_NOTE
  simp only
  omega

theorem SET_NOTE_value_field (note : ptttl_output_note_t) (v d : Nat) :
    PTTTL_NOTE_VALUE (SET_NOTE note v d) = v % 128 := by
  unfold PTTTL_NOTE_VALUE SET_NOTE
  simp only
  omega


theorem note_duration_ms_undotted (bpm duration : Nat) :
    note_duration_ms bpm duration false = 240000 / (bpm * duration) := by
  unfold note_duration_ms fp.div fp.mul fp.ofNat fp.trunc
  norm_num
  have h : ((240000 : Int)).tdiv (↑bpm * ↑duration) =
      ((240000 / (bpm * duration) : Nat) : Int) := by
    rw [← Nat.cast_mul]; rfl
  rw [h, Int.toNat_natCast]

theorem note_duration_ms_dotted (bpm duration : Nat) :
    note_duration_ms bpm duration true = 360000 / (bpm * duration) := by
  unfold note_duration_ms fp.div fp.mul fp.add fp.ofNat fp.trunc
  norm_num
  have h1 : (((240 : Int) * (↑bpm * ↑duration * 2) + 240 * (↑bpm * ↑duration)) * 1000 : Int) =
      ((360000 * (2 * (bpm * duration)) : Nat) : Int) := by push_cast; ring
  have h2 : (↑bpm * ↑duration * (↑bpm * ↑duration * 2) : Int) =
      (((bpm * duration) * (2 * (bpm * duration)) : Nat) : Int) := by push_cast; ring
  rw [h1, h2]
  have h3 : (((360000 * (2 * (bpm * duration)) : Nat) : Int)).tdiv
      (((bpm * duration) * (2 * (bpm * duration)) : Nat) : Int) =
      ((360000 * (2 * (bpm * duration)) / ((bpm * duration) * (2 * (bpm * duration))) : Nat) : Int) := rfl
  rw [h3, Int.toNat_natCast]
  rcases Nat.eq_zero_or_pos (bpm * duration) with h | h
  · simp [h]
  · rw [Nat.mul_div_mul_right _ _ (by omega : 0 < 2 * (bpm * duration))]

theorem duration_div_mod_pos (K n : Nat) (hK : K = 240000 ∨ K = 360000)
    (h1 : 1 ≤ n) (h2 : n ≤ 240000) : 0 < (K / n) % 65536 := by
  by_cases h5 : n ≤ 5
  · interval_cases n <;> rcases hK with rfl | rfl <;> decide
  · have hle : K / n ≤ K / 6 := Nat.div_le_div_left (by omega) (by omega)
    have hK6 : K / 6 ≤ 60000 := by rcases hK with rfl | rfl <;> decide
    have hpos : 1 ≤ K / n := (Nat.one_le_div_iff (by omega)).mpr (by omega)
    omega

/-- C4 (amended): the millisecond duration field (bits 7-22) of a parsed
note is strictly positive when `bpm > 0`, the duration divisor is one of
{1,2,4,8,16,32}, and additionally `bpm * duration ≤ 240000`.  (As stated the
claim is false: the computed float duration truncates to 0 milliseconds as
soon as `bpm * duration > 240000`; see the counterexample.) -/
theorem parsed_duration_field_pos (note : ptttl_output_note_t) (v bpm duration : Nat)
    (dot : Bool) (hb : 0 < bpm) (hd : duration ∈ _valid_note_durations)
    (hbound : bpm * duration ≤ 240000) :
    0 < PTTTL_NOTE_DURATION (SET_NOTE note v (note_duration_ms bpm duration dot)) := by
  have hd1 : 0 < duration := by
    simp [_valid_note_durations] at hd
    rcases hd with rfl | rfl | rfl | rfl | rfl | rfl <;> omega
  rw [SET_NOTE_duration_field]
  have h1 : 1 ≤ bpm * duration := Nat.mul_pos hb hd1
  cases dot with
  | false =>
    rw [note_duration_ms_undotted]
    exact duration_div_mod_pos 240000 (bpm * duration) (Or.inl rfl) h1 hbound
  | true =>
    rw [note_duration_ms_dotted]
    exact duration_div_mod_pos 360000 (bpm * duration) (Or.inr rfl) h1 hbound

/-- C10: whenever the computed millisecond duration is 65536 or more, the
duration field read back from the packed note equals the computed value
reduced modulo 2^16 (`SET_NOTE` masks with 0xffff), and in particular is not
the computed value itself (no saturation). -/
theorem duration_field_is_mod_65536 (note : ptttl_output_note_t) (v bpm duration : Nat)
    (dot : Bool) (h : 65536 ≤ note_duration_ms bpm duration dot) :
    PTTTL_NOTE_DURATION (SET_NOTE note v (note_duration_ms bpm duration dot)) =
      note_duration_ms bpm duration dot % 65536 ∧
    PTTTL_NOTE_DURATION (SET_NOTE note v (note_duration_ms bpm duration dot)) ≠
      note_duration_ms bpm duration dot := by
  refine ⟨SET_NOTE_duration_field note v _, ?_⟩
  rw [SET_NOTE_duration_field]
  have := Nat.mod_lt (note_duration_ms bpm duration dot) (y := 65536) (by omega)
  omega

/-! ## Pitch monotonicity (claim C8) -/

theorem fp_ble_le {x y : fp} (h : fp.ble x y = true) : fp.le x y := by
  simpa [fp.ble, fp.le] using h


/-- C8: `_note_number_to_pitch` is monotone on piano key numbers: for
1 ≤ m < n ≤ 88 the frequency resolved for n is at least the frequency
resolved for m. -/
theorem note_number_to_pitch_mono (m n : Nat) (h1 : 1 ≤ m) (h2 : m < n) (h3 : n ≤ 88) :
    fp.le (_note_number_to_pitch m) (_note_number_to_pitch n) := by
  have hb : pitch_mono_check = true := by decide
  unfold pitch_mono_check at hb
  rw [List.all_eq_true] at hb
  have hm := hb m (List.mem_range.mpr (by omega))
  rw [List.all_eq_true] at hm
  have hn := hm n (List.mem_range.mpr (by omega))
  rw [Bool.or_eq_true] at hn
  rcases hn with hn | hn
  · simp [h1, h2] at hn
  · exact fp_ble_le hn

/-! ## Parser-state helper lemmas (claim C9) -/

theorem getD_append_cons (pre l : List Char) (x d : Char) :
    (pre ++ x :: l).getD pre.length d = x := by
  induction pre with
  | nil => rfl
  | cons a t ih => simpa using ih

theorem active_of_set_active (p : ptttl_parser_t) (s : ptttl_parser_input_stream_t) :
    (p.set_active s).active = p.active := by
  cases hp : p.active <;> simp [ptttl_parser_t.set_active, hp]

theorem src_of_set_active (p : ptttl_parser_t) (s : ptttl_parser_input_stream_t) :
    (p.set_active s).src = p.src := by
  cases hp : p.active <;> simp [ptttl_parser_t.set_active, hp]

theorem input_pos_of_set_active (p : ptttl_parser_t) (s : ptttl_parser_input_stream_t) :
    (p.set_active s).input_pos = p.input_pos := by
  cases hp : p.active <;> simp [ptttl_parser_t.set_active, hp]

theorem bpm_of_set_active (p : ptttl_parser_t) (s : ptttl_parser_input_stream_t) :
    (p.set_active s).bpm = p.bpm := by
  cases hp : p.active <;> simp [ptttl_parser_t.set_active, hp]

theorem dvf_of_set_active (p : ptttl_parser_t) (s : ptttl_parser_input_stream_t) :
    (p.set_active s).default_vibrato_freq = p.default_vibrato_freq := by
  cases hp : p.active <;> simp [ptttl_parser_t.set_active, hp]

theorem dvv_of_set_active (p : ptttl_parser_t) (s : ptttl_parser_input_stream_t) :
    (p.set_active s).default_vibrato_var = p.default_vibrato_var := by
  cases hp : p.active <;> simp [ptttl_parser_t.set_active, hp]

theorem stream_of_set_active (p : ptttl_parser_t) (s : ptttl_parser_input_stream_t)
    (hwf : active_wf p) : (p.set_active s).active_stream = s := by
  cases hp : p.active with
  | main => simp [ptttl_parser_t.set_active, ptttl_parser_t.active_stream, hp]
  | chan i =>
    have hi : i < p.channels.length := hwf i hp
    simp [ptttl_parser_t.set_active, ptttl_parser_t.active_stream, hp,
      List.getD_eq_getElem?_getD, List.getElem?_set_self hi]

theorem set_active_set_active (p : ptttl_parser_t) (s t : ptttl_parser_input_stream_t) :
    (p.set_active s).set_active t = p.set_active t := by
  cases hp : p.active <;>
    simp [ptttl_parser_t.set_active, hp, List.set_set]

theorem wf_set_active (p : ptttl_parser_t) (s : ptttl_parser_input_stream_t)
    (hwf : active_wf p) : active_wf (p.set_active s) := by
  intro i hi
  rw [active_of_set_active] at hi
  have := hwf i hi
  cases hp : p.active <;> simp [ptttl_parser_t.set_active, hp] <;> omega

theorem stream_of_update_input_pos (p : ptttl_parser_t) (v : Nat) :
    ({ p with input_pos := v } : ptttl_parser_t).active_stream = p.active_stream := by
  cases hp : p.active <;> simp [ptttl_parser_t.active_stream, hp]

theorem wf_update_input_pos (p : ptttl_parser_t) (v : Nat) (hwf : active_wf p) :
    active_wf ({ p with input_pos := v } : ptttl_parser_t) := hwf

/-- A fresh peek (no saved character) on an in-bounds position delivers the
next source character and records it in the pushback slot. -/
theorem peek_fresh (p : ptttl_parser_t) (pre l : List Char) (x ch : Char)
    (hwf : active_wf p) (hsaved : p.active_stream.have_saved_char = false)
    (hsrc : p.src = pre ++ x :: l) (hpos : p.input_pos = pre.length) :
    _peek_next_char p ch =
      ⟨0, x, ({ p with input_pos := pre.length + 1 }).set_active
        { p.active_stream with
          position := p.active_stream.position + 1,
          have_saved_char := true, saved_char := x }⟩ := by
  have hlt : p.input_pos < p.src.length := by
    rw [hsrc, hpos]; simp
  have hget : p.src.getD p.input_pos ' ' = x := by
    rw [hsrc, hpos]; exact getD_append_cons pre l x ' '
  unfold _peek_next_char _readchar_wrapper iface_read
  rw [hsaved]
  simp only [Bool.false_eq_true, if_false, if_neg (by omega : ¬ p.src.length ≤ p.input_pos)]
  rw [hget, hpos]
  simp only [stream_of_update_input_pos]
  rw [stream_of_set_active _ _ (wf_update_input_pos p _ hwf)]
  simp [set_active_set_active]

/-- A peek with a saved character returns it without touching the state. -/
theorem peek_saved (p : ptttl_parser_t) (ch : Char)
    (hsaved : p.active_stream.have_saved_char = true) :
    _peek_next_char p ch = ⟨0, p.active_stream.saved_char, p⟩ := by
  unfold _peek_next_char
  rw [hsaved]
  simp

/-- A read that consumes the saved (non-newline) character. -/
theorem read_saved (p : ptttl_parser_t) (ch : Char)
    (hwf : active_wf p) (hsaved : p.active_stream.have_saved_char = true)
    (hnl : (p.active_stream.saved_char == '\n') = false) :
    _read_next_char p ch =
      ⟨0, p.active_stream.saved_char, p.set_active
        { p.active_stream with
          have_saved_char := false,
          column := p.active_stream.column + 1 }⟩ := by
  unfold _read_next_char _readchar_wrapper ADVANCE_LINE_COLUMN
  simp only [hsaved, if_true, reduceIte]
  simp only [stream_of_set_active _ _ hwf]
  simp [hnl, set_active_set_active]

theorem update_input_pos_set_active (p : ptttl_parser_t)
    (s : ptttl_parser_input_stream_t) (v : Nat) :
    ({ p.set_active s with input_pos := v } : ptttl_parser_t) =
      ({ p with input_pos := v } : ptttl_parser_t).set_active s := by
  cases hp : p.active <;> simp [ptttl_parser_t.set_active, hp]

theorem uint_end_step (p : ptttl_parser_t) (hwf : active_wf p) (k : Nat) (c d : Char) :
    uint_end (({ p with input_pos := p.input_pos + 1 }).set_active
      { p.active_stream with
        position := p.active_stream.position + 1,
        column := p.active_stream.column + 1,
        have_saved_char := false, saved_char := d }) k c = uint_end p (k + 1) c := by
  unfold uint_end
  rw [input_pos_of_set_active, stream_of_set_active _ _ (wf_update_input_pos _ _ hwf),
      update_input_pos_set_active, set_active_set_active]
  have e1 : p.input_pos + 1 + k + 1 = p.input_pos + (k + 1) + 1 := by omega
  have e2 : p.active_stream.position + 1 + k + 1 =
      p.active_stream.position + (k + 1) + 1 := by omega
  have e3 : p.active_stream.column + 1 + k = p.active_stream.column + (k + 1) := by omega
  rw [e1, e2, e3]

theorem digit_ne_newline {d : Char} (h : IS_DIGIT d = true) : (d == '\n') = false := by
  cases hb : (d == '\n') with
  | false => rfl
  | true =>
    have hd : d = '\n' := by simpa using hb
    subst hd
    simp [IS_DIGIT] at h

theorem parse_uint_loop_spec (ds : List Char) :
    ∀ (p : ptttl_parser_t) (pre rest buf : List Char) (c : Char) (fuel : Nat),
      active_wf p →
      p.active_stream.have_saved_char = false →
      p.src = pre ++ ds ++ c :: rest →
      p.input_pos = pre.length →
      (∀ d ∈ ds, IS_DIGIT d = true) →
      IS_DIGIT c = false →
      ds.length + 1 ≤ fuel →
      buf.length + ds.length ≤ 31 →
      _parse_uint_loop fuel p buf = (0, buf ++ ds, uint_end p ds.length c) := by
  induction ds with
  | nil =>
    intro p pre rest buf c fuel hwf hsaved hsrc hpos _ hc hfuel _
    cases fuel with
    | zero => omega
    | succ f =>
      rw [_parse_uint_loop, peek_fresh p pre rest c '\x00' hwf hsaved
        (by simpa using hsrc) hpos]
      simp only [hc]
      simp [uint_end, hpos]
  | cons d ds ih =>
    intro p pre rest buf c fuel hwf hsaved hsrc hpos hds hc hfuel hbuf
    cases fuel with
    | zero => simp at hfuel
    | succ f =>
      have hd : IS_DIGIT d = true := hds d (by simp)
      have hsrc' : p.src = pre ++ d :: (ds ++ c :: rest) := by simpa using hsrc
      rw [_parse_uint_loop, peek_fresh p pre (ds ++ c :: rest) d '\x00' hwf hsaved
        hsrc' hpos]
      simp only [hd]
      -- the peeked state
      set q := ({ p with input_pos := pre.length + 1 }).set_active
        { p.active_stream with
          position := p.active_stream.position + 1,
          have_saved_char := true, saved_char := d } with hq
      have hwq : active_wf q := wf_set_active _ _ (wf_update_input_pos _ _ hwf)
      have hqs : q.active_stream =
          { p.active_stream with
            position := p.active_stream.position + 1,
            have_saved_char := true, saved_char := d } :=
        stream_of_set_active _ _ (wf_update_input_pos _ _ hwf)
      rw [read_saved q d hwq (by rw [hqs]) (by rw [hqs]; exact digit_ne_newline hd)]
      simp only [hqs]
      have hbne : (buf.length == 31) = false := by
        simp only [List.length_cons] at hbuf
        simp
        omega
      simp only [show ((0 : Int) != 0) = false from rfl, Bool.false_eq_true, if_false,
        if_true, hbne]
      -- the state after consuming the digit
      rw [hq, set_active_set_active]
      have hstep := ih (({ p with input_pos := pre.length + 1 }).set_active
          { p.active_stream with
            position := p.active_stream.position + 1,
            column := p.active_stream.column + 1,
            have_saved_char := false, saved_char := d })
        (pre ++ [d]) rest (buf ++ [d]) c f
        (wf_set_active _ _ (wf_update_input_pos _ _ hwf))
        (by rw [stream_of_set_active _ _ (wf_update_input_pos _ _ hwf)])
        (by rw [src_of_set_active]; simpa using hsrc)
        (by rw [input_pos_of_set_active]; simp)
        (fun x hx => hds x (by simp [hx]))
        hc (by simp at hfuel ⊢; omega) (by simp at hbuf ⊢; omega)
      rw [hstep]
      have hend := uint_end_step p hwf ds.length c d
      rw [hpos] at hend
      rw [hend]
      simp

theorem parse_uint_from_input_spec (p : ptttl_parser_t) (pre ds rest : List Char)
    (d c : Char) (out : Nat) (eof_allowed : Bool)
    (hwf : active_wf p)
    (hsaved : p.active_stream.have_saved_char = true)
    (hsavedc : p.active_stream.saved_char = d)
    (hsrc : p.src = pre ++ d :: (ds ++ c :: rest))
    (hpos : p.input_pos = pre.length + 1)
    (hd : IS_DIGIT d = true)
    (hdig : ∀ x ∈ ds, IS_DIGIT x = true)
    (hc : IS_DIGIT c = false)
    (hlen : ds.length + 1 ≤ 31)
    (hcons : (strtoul0 (d :: ds)).2 = ds.length + 1)
    (hval : (strtoul0 (d :: ds)).1 ≤ 65535) :
    _parse_uint_from_input p out eof_allowed =
      ⟨0, (strtoul0 (d :: ds)).1, uint_from_end p ds.length c⟩ := by
  unfold _parse_uint_from_input
  -- first loop iteration consumes the saved digit
  rw [show p.src.length + 2 = (p.src.length + 1) + 1 from rfl, _parse_uint_loop,
      peek_saved p '\x00' hsaved, hsavedc]
  simp only [hd, show ((0 : Int) != 0) = false from rfl, Bool.false_eq_true, if_false,
    if_true]
  rw [read_saved p d hwf hsaved (by
    rw [hsavedc]; exact digit_ne_newline hd)]
  simp only [hsavedc, show (List.length ([] : List Char) == 31) = false from rfl,
    Bool.false_eq_true, if_false]
  -- the remaining digits via the loop specification
  simp only [List.nil_append]
  have hstep := parse_uint_loop_spec ds
    (p.set_active
      { position := p.active_stream.position, line := p.active_stream.line,
        column := p.active_stream.column + 1, block := p.active_stream.block,
        have_saved_char := false, saved_char := d })
    (pre ++ [d]) rest [d] c (p.src.length + 1)
    (wf_set_active _ _ hwf)
    (by rw [stream_of_set_active _ _ hwf])
    (by rw [src_of_set_active]; simpa using hsrc)
    (by rw [input_pos_of_set_active]; simp [hpos])
    hdig hc
    (by
      have : ds.length + 1 ≤ p.src.length := by
        rw [hsrc]; simp; omega
      omega)
    (by simp; omega)
  simp only [hstep]
  simp only [show ((0 : Int) == -1) = false from rfl, show ((0 : Int) == -3) = false from rfl,
    show ((0 : Int) == 1) = false from rfl, show ((0 : Int) < 0) = False from by simp,
    Bool.false_eq_true, if_false, List.singleton_append]
  rw [show (((d :: ds).length == 0) = false) from by simp]
  simp only [Bool.false_eq_true, if_false]
  have hc2 : ((strtoul0 (d :: ds)).2 != (d :: ds).length) = false := by
    rw [hcons]; simp
  have hv12 : ((strtoul0 (d :: ds)).1 == 18446744073709551615 ||
      decide (4294967295 < (strtoul0 (d :: ds)).1)) = false := by
    simp; omega
  simp only [hc2, hv12, Bool.false_eq_true, if_false]
  -- states: compose the first consumed digit into uint_from_end
  unfold uint_from_end uint_end
  rw [input_pos_of_set_active, stream_of_set_active _ _ hwf,
      update_input_pos_set_active, set_active_set_active]
  simp only [hpos]
  have e2 : p.active_stream.column + 1 + ds.length =
      p.active_stream.column + ds.length + 1 := by omega
  rw [e2]

theorem vibrato_digits_aux (p : ptttl_parser_t) (pre ds rest : List Char) (c : Char)
    (output : ptttl_output_note_t)
    (hwf : active_wf p)
    (hsaved : p.active_stream.have_saved_char = false)
    (hsrc : p.src = pre ++ 'v' :: (ds ++ c :: rest))
    (hpos : p.input_pos = pre.length)
    (hne : ds ≠ [])
    (hdig : ∀ x ∈ ds, IS_DIGIT x = true)
    (hc1 : IS_DIGIT c = false) (hc2 : (c == '-') = false)
    (hlen : ds.length ≤ 31)
    (hcons : (strtoul0 ds).2 = ds.length)
    (hval : (strtoul0 ds).1 ≤ 65535) :
    (_parse_note_vibrato p output).ret = 0 ∧
    PTTTL_NOTE_VIBRATO_FREQ (_parse_note_vibrato p output).note = (strtoul0 ds).1 ∧
    PTTTL_NOTE_VIBRATO_VAR (_parse_note_vibrato p output).note = 0 := by
  rcases ds with _ | ⟨d, ds'⟩
  · exact absurd rfl hne
  have hd : IS_DIGIT d = true := hdig d (by simp)
  unfold _parse_note_vibrato
  rw [peek_fresh p pre (d :: ds' ++ c :: rest) 'v' '\x00' hwf hsaved (by simpa using hsrc)
    hpos]
  simp only [show ((0 : Int) == 1) = false from rfl, show ((0 : Int) < 0) = False from by simp,
    show (('v' : Char) != 'v') = false from rfl, Bool.false_eq_true, if_false]
  -- consume the saved letter v
  have hwq0 : active_wf (({ p with input_pos := pre.length + 1 }).set_active
      { p.active_stream with
        position := p.active_stream.position + 1,
        have_saved_char := true, saved_char := 'v' }) :=
    wf_set_active _ _ (wf_update_input_pos _ _ hwf)
  have hq0s := stream_of_set_active ({ p with input_pos := pre.length + 1 })
    { p.active_stream with
      position := p.active_stream.position + 1,
      have_saved_char := true, saved_char := 'v' } (wf_update_input_pos _ _ hwf)
  rw [read_saved _ 'v' hwq0 (by rw [hq0s]) (by rw [hq0s]; simp)]
  simp only [hq0s, set_active_set_active]
  -- peek the first vibrato-frequency digit
  have hsrc2 : (({ p with input_pos := pre.length + 1 }).set_active
      { p.active_stream with
        position := p.active_stream.position + 1,
        column := p.active_stream.column + 1,
        have_saved_char := false, saved_char := 'v' }).src =
      (pre ++ ['v']) ++ d :: (ds' ++ c :: rest) := by
    rw [src_of_set_active]
    simpa using hsrc
  rw [peek_fresh _ (pre ++ ['v']) (ds' ++ c :: rest) d ' '
    (wf_set_active _ _ (wf_update_input_pos _ _ hwf))
    (by rw [stream_of_set_active _ _ (wf_update_input_pos _ _ hwf)])
    hsrc2
    (by rw [input_pos_of_set_active]; simp)]
  simp only [stream_of_set_active _ _ (wf_update_input_pos _ _ hwf),
    update_input_pos_set_active, set_active_set_active, List.length_append,
    List.length_cons, List.length_nil, hd, show ((0 : Int) == 1) = false from rfl,
    show ((0 : Int) < 0) = False from by simp, Bool.false_eq_true, if_false, if_true,
    Nat.zero_add]
  -- the saved-digit entry state for _parse_uint_from_input
  have hwq2 : active_wf (({ p with input_pos := pre.length + 1 + 1 }).set_active
      { p.active_stream with
        position := p.active_stream.position + 1 + 1,
        column := p.active_stream.column + 1,
        have_saved_char := true, saved_char := d }) :=
    wf_set_active _ _ (wf_update_input_pos _ _ hwf)
  have hq2s := stream_of_set_active ({ p with input_pos := pre.length + 1 + 1 })
    { p.active_stream with
      position := p.active_stream.position + 1 + 1,
      column := p.active_stream.column + 1,
      have_saved_char := true, saved_char := d } (wf_update_input_pos _ _ hwf)
  rw [parse_uint_from_input_spec _ (pre ++ ['v']) ds' rest d c 0 true hwq2
    (by rw [hq2s]) (by rw [hq2s])
    (by rw [src_of_set_active]; simpa using hsrc)
    (by rw [input_pos_of_set_active]; simp)
    hd (fun x hx => hdig x (by simp [hx])) hc1
    (by simpa using hlen)
    (by simpa using hcons)
    hval]
  simp only [show ((0 : Int) != 0) = false from rfl, Bool.false_eq_true, if_false,
    show ((0 : Int) == 1) = false from rfl, show ((0 : Int) < 0) = False from by simp,
    if_neg (by omega : ¬ 65535 < (strtoul0 (d :: ds')).1)]
  -- final peek returns the saved stopping character
  simp only [uint_from_end, input_pos_of_set_active, hq2s, update_input_pos_set_active,
    set_active_set_active]
  have hq3s := stream_of_set_active
    ({ p with input_pos := pre.length + 1 + 1 + ds'.length + 1 })
    { p.active_stream with
      position := p.active_stream.position + 1 + 1 + ds'.length + 1,
      column := p.active_stream.column + 1 + ds'.length + 1,
      have_saved_char := true, saved_char := c } (wf_update_input_pos _ _ hwf)
  rw [peek_saved _ ' ' (by rw [hq3s])]
  simp only [hq3s, show ((0 : Int) == 1) = false from rfl,
    show ((0 : Int) < 0) = False from by simp, Bool.false_eq_true, if_false, hc2,
    show ¬ (65535 < 0) from by omega]
  refine ⟨trivial, ?_, ?_⟩ <;>
    simp only [PTTTL_NOTE_VIBRATO_FREQ, PTTTL_NOTE_VIBRATO_VAR, SET_VIBRATO] <;>
    omega

theorem vibrato_bare_aux (p : ptttl_parser_t) (pre rest : List Char) (c : Char)
    (output : ptttl_output_note_t)
    (hwf : active_wf p)
    (hsaved : p.active_stream.have_saved_char = false)
    (hsrc : p.src = pre ++ 'v' :: c :: rest)
    (hpos : p.input_pos = pre.length)
    (hcd : IS_DIGIT c = false) :
    (_parse_note_vibrato p output).ret = 0 ∧
    PTTTL_NOTE_VIBRATO_FREQ (_parse_note_vibrato p output).note =
      p.default_vibrato_freq % 65536 ∧
    PTTTL_NOTE_VIBRATO_VAR (_parse_note_vibrato p output).note =
      p.default_vibrato_var % 65536 := by
  unfold _parse_note_vibrato
  rw [peek_fresh p pre (c :: rest) 'v' '\x00' hwf hsaved hsrc hpos]
  simp only [show ((0 : Int) == 1) = false from rfl, show ((0 : Int) < 0) = False from by simp,
    show (('v' : Char) != 'v') = false from rfl, Bool.false_eq_true, if_false]
  have hwq0 : active_wf (({ p with input_pos := pre.length + 1 }).set_active
      { p.active_stream with
        position := p.active_stream.position + 1,
        have_saved_char := true, saved_char := 'v' }) :=
    wf_set_active _ _ (wf_update_input_pos _ _ hwf)
  have hq0s := stream_of_set_active ({ p with input_pos := pre.length + 1 })
    { p.active_stream with
      position := p.active_stream.position + 1,
      have_saved_char := true, saved_char := 'v' } (wf_update_input_pos _ _ hwf)
  rw [read_saved _ 'v' hwq0 (by rw [hq0s]) (by rw [hq0s]; simp)]
  simp only [hq0s, set_active_set_active]
  have hsrc2 : (({ p with input_pos := pre.length + 1 }).set_active
      { p.active_stream with
        position := p.active_stream.position + 1,
        column := p.active_stream.column + 1,
        have_saved_char := false, saved_char := 'v' }).src =
      (pre ++ ['v']) ++ c :: rest := by
    rw [src_of_set_active]
    simpa using hsrc
  rw [peek_fresh _ (pre ++ ['v']) rest c '\x00'
    (wf_set_active _ _ (wf_update_input_pos _ _ hwf))
    (by rw [stream_of_set_active _ _ (wf_update_input_pos _ _ hwf)])
    hsrc2
    (by rw [input_pos_of_set_active]; simp)]
  simp only [show ((0 : Int) == 1) = false from rfl, show ((0 : Int) < 0) = False from by simp,
    Bool.false_eq_true, if_false, hcd, dvf_of_set_active, dvv_of_set_active]
  refine ⟨trivial, ?_, ?_⟩ <;>
    simp only [PTTTL_NOTE_VIBRATO_FREQ, PTTTL_NOTE_VIBRATO_VAR, SET_VIBRATO] <;>
    omega

/-! ## Claim theorems (remaining claims) and witnesses -/

/-- C1: the spec claims that any later block not containing exactly
`channel_count` pipe-separated segments makes some `ptttl_parse_next` call
return -1 with the inconsistent-channel-count error.  The code only detects
blocks with FEWER segments: here the second block of a two-channel source has
three segments, yet every `ptttl_parse_next` call succeeds (return codes
0,0,0,0, then 1,1 = exhausted), no error is recorded, and the surplus
segment is silently skipped — contradicting the code's own error text,
which says all blocks must have the same channel count. -/
theorem c1_surplus_channel_segment_unreported :
    run_ptttl "x:b=100:a|b;c|d|e;" [0, 1, 0, 1, 0, 1] =
      ⟨0, 2, [(0, 49, 300, 0, 0), (0, 51, 300, 0, 0), (0, 40, 300, 0, 0),
              (0, 42, 300, 0, 0), (1, 0, 0, 0, 0), (1, 0, 0, 0, 0)], none⟩ := by
  decide

/-- C2: the note `b8` (octave 8, note B) parses successfully (return 0) and
yields key number 99, exceeding the documented maximum of 88 — the
`_octave_starts` table places octave 8 at key 87, so any octave-8 note above
C produces a key number in 89..99 with no range check. -/
theorem c2_octave8_note_key_number_99 :
    run_ptttl "x:b=100:b8;" [0] = ⟨0, 1, [(0, 99, 300, 0, 0)], none⟩ := by
  decide

/-- C3 counterexample: with attack_samples = 10, decay_samples = 5 and a
3-sample note, `_load_note_stream` leaves attack = 0 and decay = 5, so
effective attack + effective decay = 5 > 3 = num_samples, refuting the
claimed invariant as stated. -/
theorem c3_attack_decay_exceed_counterexample :
    ¬ ((_load_note_stream c3_generator c3_note default_note_stream).attack +
        (_load_note_stream c3_generator c3_note default_note_stream).decay ≤
        (_load_note_stream c3_generator c3_note default_note_stream).num_samples) := by
  decide

/-- C3 witness: the amended clamp inequality at a concrete configuration
(attack 2, decay 1, 3-sample note). -/
theorem c3_amended_clamp_witness :
    c3_amended_generator.config.attack_samples +
        c3_amended_generator.config.decay_samples < 4294967296 ∧
    min c3_amended_generator.config.attack_samples
        c3_amended_generator.config.decay_samples ≤
      (_load_note_stream c3_amended_generator c3_note default_note_stream).num_samples ∧
    (_load_note_stream c3_amended_generator c3_note default_note_stream).attack +
        (_load_note_stream c3_amended_generator c3_note default_note_stream).decay ≤
      (_load_note_stream c3_amended_generator c3_note default_note_stream).num_samples :=
  ⟨by decide, by decide,
   load_note_stream_attack_decay_le c3_amended_generator c3_note default_note_stream
     (by decide) (by decide)⟩

/-- C4 counterexample: for source `x:b=8000:32c;` (bpm = 8000 > 0, duration
divisor 32 ∈ {1,2,4,8,16,32}) the note parses successfully (return 0) but
its duration field is 0, refuting strict positivity as claimed:
(60/8000)·4/32 seconds = 0.9375 ms truncates to 0. -/
theorem c4_zero_duration_counterexample :
    run_ptttl "x:b=8000:32c;" [0] = ⟨0, 1, [(0, 40, 0, 0, 0)], none⟩ := by
  decide

/-- C4 witness: positivity of the duration field at bpm = 100, duration 8
(300 ms), via the amended theorem. -/
theorem c4_duration_pos_witness :
    0 < 100 ∧ 8 ∈ _valid_note_durations ∧ 100 * 8 ≤ 240000 ∧
    0 < PTTTL_NOTE_DURATION (SET_NOTE ⟨0, 0⟩ 40 (note_duration_ms 100 8 false)) :=
  ⟨by decide, by decide, by decide,
   parsed_duration_field_pos ⟨0, 0⟩ 40 100 8 false (by decide) (by decide) (by decide)⟩

/-- C5 witness: chunk sizes [2, 3] against a single call of 5 samples on a
fully initialized generator. -/
theorem c5_chunking_witness :
    (ptttl_sample_generator_generate ([2, 3] : List Nat).sum c5_generator).status ≠ -1 ∧
    (run_generate_chunks [2, 3] c5_generator).samples =
      (ptttl_sample_generator_generate ([2, 3] : List Nat).sum c5_generator).samples :=
  ⟨by decide, run_chunks_eq_single [2, 3] c5_generator (by decide)⟩

/-- C6: for source `x:b=100:c,d|e,f;`, `ptttl_parse_init` succeeds with
channel_count = 2, and for every interleaving of the per-channel
`ptttl_parse_next` calls, channel 0 yields C then D (keys 40, 42; 300 ms) and
channel 1 yields E then F (keys 44, 45; 300 ms), with no error. -/
theorem c6_two_channel_interleaving_independent :
    ((ptttl_parse_init "x:b=100:c,d|e,f;".toList).ret = 0 ∧
     (ptttl_parse_init "x:b=100:c,d|e,f;".toList).p.channel_count = 2) ∧
    (([[0, 0, 1, 1], [0, 1, 0, 1], [0, 1, 1, 0],
       [1, 0, 0, 1], [1, 0, 1, 0], [1, 1, 0, 0]] : List (List Nat)).all
      (fun calls =>
        let r := run_ptttl "x:b=100:c,d|e,f;" calls
        decide (r.init_ret = 0 ∧ r.channel_count = 2 ∧ r.error_message = none) &&
        ((calls.zip r.results).filter (fun e => e.1 == 0)).map (fun e => e.2) ==
          [(0, 40, 300, 0, 0), (0, 42, 300, 0, 0)] &&
        ((calls.zip r.results).filter (fun e => e.1 == 1)).map (fun e => e.2) ==
          [(0, 44, 300, 0, 0), (0, 45, 300, 0, 0)])) = true := by
  decide

/-- C7: parsing `x:b=0:c;` fails during settings parsing: `ptttl_parse_init`
returns -1 with the BPM range error message at line 1, column 5; no later
duration computation (which divides by bpm) is reached. -/
theorem c7_bpm_zero_range_error :
    (ptttl_parse_init "x:b=0:c;".toList).ret = -1 ∧
    (ptttl_parse_init "x:b=0:c;".toList).p.error =
      ⟨some "BPM cannot be zero", 1, 5⟩ := by
  decide

/-- C8 witness: pitch monotonicity applied at the extreme keys 1 and 88. -/
theorem c8_pitch_mono_witness :
    1 ≤ 1 ∧ 1 < 88 ∧ 88 ≤ 88 ∧
    fp.le (_note_number_to_pitch 1) (_note_number_to_pitch 88) :=
  ⟨by decide, by decide, by decide,
   note_number_to_pitch_mono 1 88 (by decide) (by decide) (by decide)⟩

/-- C9: a vibrato suffix `v<digits>` with no following `-<digits>` yields a
successfully parsed note with vibrato frequency equal to the parsed value and
vibrato variance 0 (not the settings-section default variance); the
settings-section default frequency and variance are applied exactly when the
suffix is a bare `v` followed by a non-digit. -/
theorem vibrato_explicit_and_default :
    (∀ (p : ptttl_parser_t) (pre ds rest : List Char) (c : Char)
        (output : ptttl_output_note_t),
      active_wf p → p.active_stream.have_saved_char = false →
      p.src = pre ++ 'v' :: (ds ++ c :: rest) → p.input_pos = pre.length →
      ds ≠ [] → (∀ x ∈ ds, IS_DIGIT x = true) →
      IS_DIGIT c = false → (c == '-') = false →
      ds.length ≤ 31 → (strtoul0 ds).2 = ds.length → (strtoul0 ds).1 ≤ 65535 →
      (_parse_note_vibrato p output).ret = 0 ∧
      PTTTL_NOTE_VIBRATO_FREQ (_parse_note_vibrato p output).note = (strtoul0 ds).1 ∧
      PTTTL_NOTE_VIBRATO_VAR (_parse_note_vibrato p output).note = 0) ∧
    (∀ (p : ptttl_parser_t) (pre rest : List Char) (c : Char)
        (output : ptttl_output_note_t),
      active_wf p → p.active_stream.have_saved_char = false →
      p.src = pre ++ 'v' :: c :: rest → p.input_pos = pre.length →
      IS_DIGIT c = false →
      (_parse_note_vibrato p output).ret = 0 ∧
      PTTTL_NOTE_VIBRATO_FREQ (_parse_note_vibrato p output).note =
        p.default_vibrato_freq % 65536 ∧
      PTTTL_NOTE_VIBRATO_VAR (_parse_note_vibrato p output).note =
        p.default_vibrato_var % 65536) :=
  ⟨fun p pre ds rest c output h1 h2 h3 h4 h5 h6 h7 h8 h9 h10 h11 =>
     vibrato_digits_aux p pre ds rest c output h1 h2 h3 h4 h5 h6 h7 h8 h9 h10 h11,
   fun p pre rest c output h1 h2 h3 h4 h5 =>
     vibrato_bare_aux p pre rest c output h1 h2 h3 h4 h5⟩

/-- C9 witness: the suffix `v12,` yields frequency 12, variance 0; the bare
suffix `v,` keeps the defaults (7 and 10). -/
theorem c9_vibrato_witness :
    ((_parse_note_vibrato c9_input ⟨0, 0⟩).ret = 0 ∧
     PTTTL_NOTE_VIBRATO_FREQ (_parse_note_vibrato c9_input ⟨0, 0⟩).note =
       (strtoul0 ['1', '2']).1 ∧
     PTTTL_NOTE_VIBRATO_VAR (_parse_note_vibrato c9_input ⟨0, 0⟩).note = 0) ∧
    ((_parse_note_vibrato c9_input_bare ⟨0, 0⟩).ret = 0 ∧
     PTTTL_NOTE_VIBRATO_FREQ (_parse_note_vibrato c9_input_bare ⟨0, 0⟩).note =
       7 % 65536 ∧
     PTTTL_NOTE_VIBRATO_VAR (_parse_note_vibrato c9_input_bare ⟨0, 0⟩).note =
       10 % 65536) := by
  have h := vibrato_explicit_and_default
  exact ⟨h.1 c9_input [] ['1', '2'] ['c'] ',' ⟨0, 0⟩
      (by intro i hi; simp [c9_input] at hi) (by decide) (by decide) (by decide)
      (by decide) (by decide) (by decide) (by decide) (by decide) (by decide)
      (by decide),
    h.2 c9_input_bare [] ['c'] ',' ⟨0, 0⟩
      (by intro i hi; simp [c9_input_bare, c9_input] at hi) (by decide) (by decide)
      (by decide) (by decide)⟩

/-- C10 witness: at bpm = 1 with duration divisor 1 the computed duration is
240000 ms ≥ 65536, and the stored field is 240000 mod 65536 = 43392. -/
theorem c10_duration_mod_witness :
    65536 ≤ note_duration_ms 1 1 false ∧
    (PTTTL_NOTE_DURATION (SET_NOTE ⟨0, 0⟩ 40 (note_duration_ms 1 1 false)) =
        note_duration_ms 1 1 false % 65536 ∧
      PTTTL_NOTE_DURATION (SET_NOTE ⟨0, 0⟩ 40 (note_duration_ms 1 1 false)) ≠
        note_duration_ms 1 1 false) :=
  ⟨by decide, duration_field_is_mod_65536 ⟨0, 0⟩ 40 1 1 false (by decide)⟩
